import Mathlib

/-!
Verification of the smartlead-mcp adapter (a TypeScript MCP server wrapping
the Smartlead REST API).

The development shallowly embeds the source modules:

* `src/smartlead-client.ts` — the transport client (`SmartleadClient`,
  `handleError`, and the `get`/`post`/`delete` verbs with API-key injection);
* `src/types/smartlead.ts` — the zod input schemas, embedded as parsers from
  a JS-value type `Json` to typed parameter records;
* `src/tools/{campaigns,leads,email-accounts,analytics}.ts` — one handler per
  tool, each parsing its input, issuing one transport request and wrapping the
  upstream response into the MCP envelope;
* `src/tools/index.ts` — the registry and `executeTool`;
* `src/server.ts` — the call-tool request handler and its error labelling.

JS values are modelled by the inductive `Json`; JS numbers are modelled by
`Rat` (exact rationals; every numeric value exercised by the theorems is
integral, and `Number.isInteger` becomes `q.den = 1`).  The HTTP layer is an
oracle `upstream : Request → UpstreamResult` carried inside the client; each
handler run returns the list of transport requests it issued, so "the
transport was never invoked" is the statement that this list is empty.
-/

namespace Smartlead

/-- A JS/JSON value (`unknown` on the TS side).  Object fields keep their
written order, mirroring JS object literals. -/
inductive Json where
  | null
  | bool (b : Bool)
  | num (q : Rat)
  | str (s : String)
  | arr (elems : List Json)
  | obj (fields : List (String × Json))
deriving Repr, Inhabited

/-- JS property lookup on an object's assignment list: a later assignment to
the same key overwrites an earlier one, so the last occurrence wins. -/
def jsGet (fields : List (String × Json)) (k : String) : Option Json :=
  match fields with
  | [] => none
  | (k2, v) :: rest =>
    match jsGet rest k with
    | some r => some r
    | none => if k2 == k then some v else none

/-- Property lookup on a `Json` value; `none` both for a missing key and for
a non-object receiver (where the TS code would see `undefined`). -/
def Json.getField : Json → String → Option Json
  | .obj fields, k => jsGet fields k
  | _, _ => none

/-- Rendering of a (JS) number.  Every number produced or serialized by the
adapter's code paths under verification is integral; for non-integral
rationals we fall back to the `Rat` printer, standing in for JS float
formatting, which is outside this model. -/
def ratToString (q : Rat) : String :=
  if q.den = 1 then toString q.num else toString q

mutual

/-- JS string coercion (template-literal semantics): strings unquoted,
numbers and booleans printed, `null` printed as `null`, arrays joined with
commas, plain objects as `[object Object]`. -/
def jsToString : Json → String
  | .null => "null"
  | .bool true => "true"
  | .bool false => "false"
  | .num q => ratToString q
  | .str s => s
  | .arr xs => jsJoinList xs
  | .obj _ => "[object Object]"

/-- `Array.prototype.join` with `","`: `null` elements render as empty. -/
def jsJoinList : List Json → String
  | [] => ""
  | [x] => jsJoinElem x
  | x :: xs => jsJoinElem x ++ "," ++ jsJoinList xs

/-- One array element under `join`: `null` becomes the empty string. -/
def jsJoinElem : Json → String
  | .null => ""
  | v => jsToString v

end

/-- Hex digit for string escapes. -/
def hexDigit (n : Nat) : Char :=
  if n < 10 then Char.ofNat (48 + n) else Char.ofNat (87 + n)

/-- Four-digit lowercase hex, as produced by `JSON.stringify` for control
characters. -/
def hex4 (n : Nat) : String :=
  String.mk [hexDigit (n / 4096 % 16), hexDigit (n / 256 % 16),
             hexDigit (n / 16 % 16), hexDigit (n % 16)]

/-- Escaping of one character inside a JSON string literal, following
`JSON.stringify`. -/
def escChar (c : Char) : String :=
  if c = '"' then "\\\""
  else if c = '\\' then "\\\\"
  else if c = '\n' then "\\n"
  else if c = '\r' then "\\r"
  else if c = '\t' then "\\t"
  else if c = '\x08' then "\\b"
  else if c = '\x0c' then "\\f"
  else if c.toNat < 32 then "\\u" ++ hex4 c.toNat
  else String.singleton c

/-- A JSON string literal with its surrounding quotes. -/
def quoteStr (s : String) : String :=
  "\"" ++ String.join (s.data.map escChar) ++ "\""

/-- `n` spaces, for the two-space indentation of `JSON.stringify(v, null, 2)`. -/
def spaces (n : Nat) : String :=
  String.mk (List.replicate n ' ')

mutual

/-- `JSON.stringify(v, null, 2)` at indentation `ind`: empty containers are
compact, non-empty containers put each item on its own line indented two
further spaces, the closing bracket on a line indented `ind`. -/
def stringifyAt : Json → Nat → String
  | .null, _ => "null"
  | .bool true, _ => "true"
  | .bool false, _ => "false"
  | .num q, _ => ratToString q
  | .str s, _ => quoteStr s
  | .arr [], _ => "[]"
  | .arr (x :: xs), ind =>
    "[\n" ++ stringifyItems (x :: xs) (ind + 2) ++ "\n" ++ spaces ind ++ "]"
  | .obj [], _ => "\x7b\x7d"
  | .obj (f :: fs), ind =>
    "\x7b\n" ++ stringifyFields (f :: fs) (ind + 2) ++ "\n" ++ spaces ind ++ "\x7d"

/-- The comma-and-newline separated items of a non-empty array. -/
def stringifyItems : List Json → Nat → String
  | [], _ => ""
  | [x], ind => spaces ind ++ stringifyAt x ind
  | x :: y :: xs, ind =>
    spaces ind ++ stringifyAt x ind ++ ",\n" ++ stringifyItems (y :: xs) ind

/-- The comma-and-newline separated members of a non-empty object. -/
def stringifyFields : List (String × Json) → Nat → String
  | [], _ => ""
  | [(k, v)], ind => spaces ind ++ quoteStr k ++ ": " ++ stringifyAt v ind
  | (k, v) :: g :: fs, ind =>
    spaces ind ++ quoteStr k ++ ": " ++ stringifyAt v ind ++ ",\n" ++
      stringifyFields (g :: fs) ind

end

/-- `JSON.stringify(v, null, 2)`, the serialization every handler applies to
the raw upstream response. -/
def stringify (v : Json) : String := stringifyAt v 0

/-- The three HTTP verbs exposed by `SmartleadClient`. -/
inductive Verb where
  | get
  | post
  | delete
deriving Repr, DecidableEq

/-- One outbound HTTP request as the transport client hands it to axios.
`params` records the query-object assignments in order (`api_key` first, then
the caller's parameters, later assignments overriding earlier ones under
`jsGet`); `body` is the JSON request body, `none` when the call sends none. -/
structure Request where
  verb : Verb
  endpoint : String
  params : List (String × Json)
  body : Option Json
deriving Repr

/-- A value thrown by the transport layer, as discriminated by
`SmartleadClient.handleError`: an axios error carrying an upstream response
(status, body, axios message), an axios error whose request got no response,
some other `Error` instance (returned unchanged by the final line), or a
thrown value that is not an `Error` at all. -/
inductive Thrown where
  | httpResponse (status : Nat) (data : Option Json) (message : String)
  | noResponse
  | errorValue (message : String)
  | nonError
deriving Repr

/-- What the upstream oracle does with one request. -/
inductive UpstreamResult where
  | ok (data : Json)
  | threw (e : Thrown)

/-- An error travelling from a tool handler to the server boundary:
a zod validation error (`error.name === "ZodError"`), any other `Error`
(API errors, unknown-tool errors), or a non-`Error` throw value. -/
inductive Caught where
  | zodError (message : String)
  | jsError (message : String)
  | nonError
deriving Repr, DecidableEq

/-- The transport client: the configured API key plus the behaviour of the
upstream service (the mocked axios instance). -/
structure SmartleadClient where
  apiKey : String
  upstream : Request → UpstreamResult

/-- The fixed hint `handleError` appends for the four special status codes
(and the empty string for every other status). -/
def statusHint (status : Nat) : String :=
  if status = 401 || status = 403 then " - Check your API key is valid"
  else if status = 404 then " - Resource not found"
  else if status = 429 then " - Rate limit exceeded, please try again later"
  else ""

/-- `'error' in errorData` together with the access `errorData.error`:
`some` exactly when the response body is an object with an `error` member. -/
def errField : Json → Option Json
  | .obj fields => jsGet fields "error"
  | _ => none

/-- `SmartleadClient.handleError`: normalizes a transport-level throw into the
message of the single `Error` the client rethrows.  An HTTP response error
yields `Smartlead API error (<status>)`, extended with the body's `error`
member (or, failing that, the axios message when non-empty), plus the status
hint; a request that got no response yields the fixed no-response message;
any other `Error` passes through unchanged; a non-`Error` throw value yields
the generic unknown-error message. -/
def handleError : Thrown → String
  | .httpResponse status data message =>
    let base := "Smartlead API error (" ++ toString status ++ ")"
    let detailed :=
      match data.bind errField with
      | some v => base ++ ": " ++ jsToString v
      | none => if message == "" then base else base ++ ": " ++ message
    detailed ++ statusHint status
  | .noResponse => "No response received from Smartlead API. Check your network connection."
  | .errorValue message => message
  | .nonError => "Unknown error occurred"

/-- Issue one request: build the query object `{api_key: ..., ...params}`,
consult the upstream, and either return the response data or the normalized
error.  The second component is the trace of transport requests issued. -/
def SmartleadClient.send (c : SmartleadClient) (verb : Verb) (endpoint : String)
    (body : Option Json) (params : List (String × Json)) :
    Except Caught Json × List Request :=
  let req : Request :=
    ⟨verb, endpoint, ("api_key", Json.str c.apiKey) :: params, body⟩
  (match c.upstream req with
   | .ok data => .ok data
   | .threw e => .error (.jsError (handleError e)), [req])

/-- `SmartleadClient.get(endpoint, params?)`. -/
def SmartleadClient.get (c : SmartleadClient) (endpoint : String)
    (params : List (String × Json)) : Except Caught Json × List Request :=
  c.send .get endpoint none params

/-- `SmartleadClient.post(endpoint, data?, params?)`. -/
def SmartleadClient.post (c : SmartleadClient) (endpoint : String)
    (body : Option Json) (params : List (String × Json)) :
    Except Caught Json × List Request :=
  c.send .post endpoint body params

/-- `SmartleadClient.delete(endpoint, data?, params?)`. -/
def SmartleadClient.delete (c : SmartleadClient) (endpoint : String)
    (body : Option Json) (params : List (String × Json)) :
    Except Caught Json × List Request :=
  c.send .delete endpoint body params

/-- One block of an MCP response envelope. -/
structure ContentBlock where
  type : String
  text : String
deriving Repr, DecidableEq

/-- The MCP response envelope: a list of content blocks plus the optional
`isError` flag (success envelopes from the tool handlers leave it unset; the
server's failure envelope sets it to `true`). -/
structure ToolResponse where
  content : List ContentBlock
  isError : Option Bool
deriving Repr, DecidableEq

/-- What running one tool handler produces: either an MCP envelope or the
thrown error, together with the trace of transport requests issued. -/
abbrev HandlerOut := Except Caught ToolResponse × List Request

/-- Wrap a transport outcome into a handler outcome, applying `f` to a
successful response to build the envelope. -/
def respond (out : Except Caught Json × List Request)
    (f : Json → ToolResponse) : HandlerOut :=
  (out.1.map f, out.2)

/-- The success envelope `{content: [{type: "text", text: t}]}`. -/
def textResponse (t : String) : ToolResponse :=
  ⟨[⟨"text", t⟩], none⟩

/-! ### The zod validators used by the input schemas

Each embeds one zod pipeline from `src/types/smartlead.ts` as a function
`Json → Option α`: `none` is a thrown `ZodError`.  `z.number().int()` is
`Number.isInteger`, i.e. `q.den = 1` on the rational model. -/

/-- `z.number().int()`. -/
def zodInt : Json → Option Rat
  | .num q => if q.den = 1 then some q else none
  | _ => none

/-- `z.number().int().positive()`. -/
def zodPosInt : Json → Option Rat
  | .num q => if q.den = 1 ∧ 0 < q then some q else none
  | _ => none

/-- `z.number().int().min(0)` (the pagination offset). -/
def zodNonnegInt : Json → Option Rat
  | .num q => if q.den = 1 ∧ 0 ≤ q then some q else none
  | _ => none

/-- `z.number().int().min(lo).max(hi)` (pagination limits, percentages,
days of the week). -/
def zodIntRange (lo hi : Rat) : Json → Option Rat
  | .num q => if q.den = 1 ∧ lo ≤ q ∧ q ≤ hi then some q else none
  | _ => none

/-- `z.string()`. -/
def zodString : Json → Option String
  | .str s => some s
  | _ => none

/-- `z.string().min(1)`. -/
def zodNonemptyString : Json → Option String
  | .str s => if 1 ≤ s.length then some s else none
  | _ => none

/-- `z.boolean()`. -/
def zodBool : Json → Option Bool
  | .bool b => some b
  | _ => none

/-- `z.enum(values)`: a string drawn from the fixed value set. -/
def zodEnum (values : List String) : Json → Option String
  | .str s => if s ∈ values then some s else none
  | _ => none

/-- `z.record(z.unknown())`: any object. -/
def zodRecord : Json → Option (List (String × Json))
  | .obj fields => some fields
  | _ => none

/-- Element-wise validation of a JS array (`z.array(inner)`). -/
def parseList (f : Json → Option α) : List Json → Option (List α)
  | [] => some []
  | x :: xs => do
    let a ← f x
    let rest ← parseList f xs
    pure (a :: rest)

/-- `z.array(inner)`. -/
def zodArray (f : Json → Option α) : Json → Option (List α)
  | .arr xs => parseList f xs
  | _ => none

/-- A required object member: absent (`undefined`) fails, present values go
through the member's validator. -/
def rfield (fields : List (String × Json)) (k : String)
    (f : Json → Option α) : Option α :=
  (jsGet fields k).bind f

/-- An `.optional()` object member: absent yields `none` (the key is left out
of the parsed object), present values must validate. -/
def ofield (fields : List (String × Json)) (k : String)
    (f : Json → Option α) : Option (Option α) :=
  match jsGet fields k with
  | none => some none
  | some v => (f v).map some

/-- A `.default(d)` object member: absent yields the default (which the zod
inner schema accepts), present values must validate. -/
def dfield (fields : List (String × Json)) (k : String) (d : α)
    (f : Json → Option α) : Option α :=
  match jsGet fields k with
  | none => some d
  | some v => f v

/-! ### The `z.string().email()` check

zod's email validation is a single regex; the character-level functions below
implement it directly: a non-empty local part of permitted characters whose
last character is from the narrower set, no leading dot and no consecutive
dots anywhere, one `@`, then one or more `[A-Za-z0-9][A-Za-z0-9-]*` labels
and a final all-letter label of length at least two. -/

/-- Split a character list at every occurrence of `sep` (the single-character
case of `String.prototype.split`); always yields at least one part. -/
def splitOnChar (sep : Char) : List Char → List (List Char)
  | [] => [[]]
  | c :: rest =>
    match splitOnChar sep rest with
    | [] => [[]]
    | part :: parts =>
      if c = sep then [] :: part :: parts else (c :: part) :: parts

/-- A character allowed anywhere in the local part: letters, digits,
underscore, apostrophe (codepoint 39), plus, minus, dot. -/
def emailLocalChar (c : Char) : Bool :=
  c.isAlpha || c.isDigit || c = '_' || c.toNat = 39 || c = '+' || c = '-' || c = '.'

/-- A character allowed as the final character of the local part. -/
def emailLocalLastChar (c : Char) : Bool :=
  c.isAlpha || c.isDigit || c = '_' || c = '+' || c = '-'

/-- No two consecutive dots. -/
def noDoubleDot : List Char → Bool
  | [] => true
  | [_] => true
  | a :: b :: rest => !(a = '.' && b = '.') && noDoubleDot (b :: rest)

/-- The leading-dot lookahead: the first character is not a dot. -/
def headNotDot : List Char → Bool
  | [] => true
  | c :: _ => !(c = '.')

/-- One interior domain label: `[A-Za-z0-9][A-Za-z0-9-]*`. -/
def domainLabelOk : List Char → Bool
  | [] => false
  | c :: rest =>
    (c.isAlpha || c.isDigit) && rest.all (fun d => d.isAlpha || d.isDigit || d = '-')

/-- The final label: letters only, length at least two. -/
def tldOk (l : List Char) : Bool :=
  l.all Char.isAlpha && decide (2 ≤ l.length)

/-- The domain side: interior labels separated by dots, then the final label. -/
def emailDomainOk (domain : List Char) : Bool :=
  match splitOnChar '.' domain with
  | [] => false
  | [_] => false
  | parts => parts.dropLast.all domainLabelOk && tldOk parts.getLast!

/-- The full `z.string().email()` check. -/
def zodEmailCheck (s : String) : Bool :=
  match splitOnChar '@' s.data with
  | [localPart, domain] =>
    !localPart.isEmpty &&
    localPart.all emailLocalChar &&
    emailLocalLastChar localPart.getLast! &&
    headNotDot s.data &&
    noDoubleDot s.data &&
    emailDomainOk domain
  | _ => false

/-- `z.string().email()`. -/
def zodEmail : Json → Option String
  | .str s => if zodEmailCheck s then some s else none
  | _ => none

/-- The date-shape regex of `GetCampaignAnalyticsByDateSchema`:
four digits, hyphen, two digits, hyphen, two digits — and nothing else. -/
def matchesDateRegex (s : String) : Bool :=
  match s.data with
  | [y1, y2, y3, y4, d1, m1, m2, d2, a1, a2] =>
    y1.isDigit && y2.isDigit && y3.isDigit && y4.isDigit &&
    d1 = '-' && m1.isDigit && m2.isDigit && d2 = '-' && a1.isDigit && a2.isDigit
  | _ => false

/-- `z.string().regex(dateRegex)`. -/
def zodDateString : Json → Option String
  | .str s => if matchesDateRegex s then some s else none
  | _ => none

/-! ### The input schemas of `src/types/smartlead.ts`

Each schema is embedded as its parse function `Json → Option <params>`; the
parsed record holds the validated members, optionals as `Option`.  zod
objects in strip mode reject non-objects, fail on an invalid or missing
required member, and drop unrecognized keys.  A `<schema>_keys` list records
the member names the schema declares (for the payload-shape theorems). -/

/-- A member of the parsed object rebuilt as JS: present optionals become one
field, absent optionals none (zod's parsed object has no key for them). -/
def optField (k : String) (f : α → Json) : Option α → List (String × Json)
  | some a => [(k, f a)]
  | none => []

/-- Parsed `CreateCampaignSchema` input. -/
structure CreateCampaignParams where
  name : String
  client_id : Option Rat

/-- `CreateCampaignSchema`. -/
def CreateCampaignSchema : Json → Option CreateCampaignParams
  | .obj fields => do
    let name ← rfield fields "name" zodNonemptyString
    let client_id ← ofield fields "client_id" zodInt
    pure ⟨name, client_id⟩
  | _ => none

/-- The member names `CreateCampaignSchema` declares. -/
def CreateCampaignSchema_keys : List String := ["name", "client_id"]

/-- Parsed `GetCampaignSchema` input. -/
structure GetCampaignParams where
  campaign_id : Rat

/-- `GetCampaignSchema`. -/
def GetCampaignSchema : Json → Option GetCampaignParams
  | .obj fields => do
    let campaign_id ← rfield fields "campaign_id" zodPosInt
    pure ⟨campaign_id⟩
  | _ => none

/-- The member names `GetCampaignSchema` declares. -/
def GetCampaignSchema_keys : List String := ["campaign_id"]

/-- Parsed `UpdateCampaignScheduleSchema` input. -/
structure UpdateCampaignScheduleParams where
  campaign_id : Rat
  timezone : Option String
  days_of_the_week : Option (List Rat)
  start_hour : Option String
  end_hour : Option String
  min_time_btw_emails : Option Rat
  max_new_leads_per_day : Option Rat
  schedule_start_time : Option String

/-- `UpdateCampaignScheduleSchema`. -/
def UpdateCampaignScheduleSchema : Json → Option UpdateCampaignScheduleParams
  | .obj fields => do
    let campaign_id ← rfield fields "campaign_id" zodPosInt
    let timezone ← ofield fields "timezone" zodString
    let days ← ofield fields "days_of_the_week" (zodArray (zodIntRange 0 6))
    let start_hour ← ofield fields "start_hour" zodString
    let end_hour ← ofield fields "end_hour" zodString
    let min_time ← ofield fields "min_time_btw_emails" zodInt
    let max_new ← ofield fields "max_new_leads_per_day" zodInt
    let sched ← ofield fields "schedule_start_time" zodString
    pure ⟨campaign_id, timezone, days, start_hour, end_hour, min_time, max_new, sched⟩
  | _ => none

/-- The member names `UpdateCampaignScheduleSchema` declares. -/
def UpdateCampaignScheduleSchema_keys : List String :=
  ["campaign_id", "timezone", "days_of_the_week", "start_hour", "end_hour",
   "min_time_btw_emails", "max_new_leads_per_day", "schedule_start_time"]

/-- The request body `updateCampaignSchedule` posts: the parsed object minus
`campaign_id` (the destructured rest), keys in schema order, absent optionals
absent. -/
def scheduleBody (p : UpdateCampaignScheduleParams) : Json :=
  .obj (optField "timezone" Json.str p.timezone ++
    optField "days_of_the_week" (fun l => Json.arr (l.map Json.num)) p.days_of_the_week ++
    optField "start_hour" Json.str p.start_hour ++
    optField "end_hour" Json.str p.end_hour ++
    optField "min_time_btw_emails" Json.num p.min_time_btw_emails ++
    optField "max_new_leads_per_day" Json.num p.max_new_leads_per_day ++
    optField "schedule_start_time" Json.str p.schedule_start_time)

/-- Parsed `UpdateCampaignSettingsSchema` input. -/
structure UpdateCampaignSettingsParams where
  campaign_id : Rat
  track_settings : Option (List String)
  stop_lead_settings : Option String
  unsubscribe_text : Option String
  send_as_plain_text : Option Bool
  follow_up_percentage : Option Rat
  client_id : Option Rat
  enable_ai_esp_matching : Option Bool

/-- `UpdateCampaignSettingsSchema`. -/
def UpdateCampaignSettingsSchema : Json → Option UpdateCampaignSettingsParams
  | .obj fields => do
    let campaign_id ← rfield fields "campaign_id" zodPosInt
    let track ← ofield fields "track_settings" (zodArray zodString)
    let stop ← ofield fields "stop_lead_settings" zodString
    let unsub ← ofield fields "unsubscribe_text" zodString
    let plain ← ofield fields "send_as_plain_text" zodBool
    let fup ← ofield fields "follow_up_percentage" (zodIntRange 0 100)
    let client_id ← ofield fields "client_id" zodInt
    let esp ← ofield fields "enable_ai_esp_matching" zodBool
    pure ⟨campaign_id, track, stop, unsub, plain, fup, client_id, esp⟩
  | _ => none

/-- The member names `UpdateCampaignSettingsSchema` declares. -/
def UpdateCampaignSettingsSchema_keys : List String :=
  ["campaign_id", "track_settings", "stop_lead_settings", "unsubscribe_text",
   "send_as_plain_text", "follow_up_percentage", "client_id", "enable_ai_esp_matching"]

/-- The request body `updateCampaignSettings` posts (the destructured rest). -/
def settingsBody (p : UpdateCampaignSettingsParams) : Json :=
  .obj (optField "track_settings" (fun l => Json.arr (l.map Json.str)) p.track_settings ++
    optField "stop_lead_settings" Json.str p.stop_lead_settings ++
    optField "unsubscribe_text" Json.str p.unsubscribe_text ++
    optField "send_as_plain_text" Json.bool p.send_as_plain_text ++
    optField "follow_up_percentage" Json.num p.follow_up_percentage ++
    optField "client_id" Json.num p.client_id ++
    optField "enable_ai_esp_matching" Json.bool p.enable_ai_esp_matching)

/-- Parsed `UpdateCampaignStatusSchema` input. -/
structure UpdateCampaignStatusParams where
  campaign_id : Rat
  status : String

/-- `UpdateCampaignStatusSchema`. -/
def UpdateCampaignStatusSchema : Json → Option UpdateCampaignStatusParams
  | .obj fields => do
    let campaign_id ← rfield fields "campaign_id" zodPosInt
    let status ← rfield fields "status" (zodEnum ["PAUSED", "STOPPED", "START"])
    pure ⟨campaign_id, status⟩
  | _ => none

/-- The member names `UpdateCampaignStatusSchema` declares. -/
def UpdateCampaignStatusSchema_keys : List String := ["campaign_id", "status"]

/-- Parsed pagination-bearing `ListCampaignLeadsSchema` input. -/
structure ListCampaignLeadsParams where
  campaign_id : Rat
  offset : Rat
  limit : Rat

/-- `ListCampaignLeadsSchema` (offset defaults to 0, limit to 100). -/
def ListCampaignLeadsSchema : Json → Option ListCampaignLeadsParams
  | .obj fields => do
    let campaign_id ← rfield fields "campaign_id" zodPosInt
    let offset ← dfield fields "offset" 0 zodNonnegInt
    let limit ← dfield fields "limit" 100 (zodIntRange 1 100)
    pure ⟨campaign_id, offset, limit⟩
  | _ => none

/-- The member names `ListCampaignLeadsSchema` declares. -/
def ListCampaignLeadsSchema_keys : List String := ["campaign_id", "offset", "limit"]

/-- One entry of `AddLeadsSchema`'s `lead_list`. -/
structure LeadRecord where
  first_name : String
  last_name : String
  email : String
  phone_number : Option String
  company_name : Option String
  website : Option String
  location : Option String
  linkedin_profile : Option String
  company_url : Option String
  custom_fields : Option (List (String × Json))

/-- The per-lead object schema inside `AddLeadsSchema.lead_list`. -/
def parseLeadRecord : Json → Option LeadRecord
  | .obj fields => do
    let first_name ← rfield fields "first_name" zodNonemptyString
    let last_name ← rfield fields "last_name" zodNonemptyString
    let email ← rfield fields "email" zodEmail
    let phone ← ofield fields "phone_number" zodString
    let company ← ofield fields "company_name" zodString
    let website ← ofield fields "website" zodString
    let location ← ofield fields "location" zodString
    let linkedin ← ofield fields "linkedin_profile" zodString
    let curl ← ofield fields "company_url" zodString
    let custom ← ofield fields "custom_fields" zodRecord
    pure ⟨first_name, last_name, email, phone, company, website, location, linkedin, curl, custom⟩
  | _ => none

/-- A parsed lead rebuilt as the JS object the handler forwards upstream
(zod's parsed object: schema-ordered keys, optionals only when present). -/
def leadToJson (l : LeadRecord) : Json :=
  .obj ([("first_name", Json.str l.first_name),
         ("last_name", Json.str l.last_name),
         ("email", Json.str l.email)] ++
    optField "phone_number" Json.str l.phone_number ++
    optField "company_name" Json.str l.company_name ++
    optField "website" Json.str l.website ++
    optField "location" Json.str l.location ++
    optField "linkedin_profile" Json.str l.linkedin_profile ++
    optField "company_url" Json.str l.company_url ++
    optField "custom_fields" Json.obj l.custom_fields)

/-- The optional `settings` object of `AddLeadsSchema`. -/
structure AddLeadsSettings where
  ignore_global_block_list : Option Bool
  ignore_unsubscribe_list : Option Bool
  ignore_duplicate_leads_in_other_campaign : Option Bool

/-- The `settings` sub-schema of `AddLeadsSchema`. -/
def parseAddLeadsSettings : Json → Option AddLeadsSettings
  | .obj fields => do
    let g ← ofield fields "ignore_global_block_list" zodBool
    let u ← ofield fields "ignore_unsubscribe_list" zodBool
    let d ← ofield fields "ignore_duplicate_leads_in_other_campaign" zodBool
    pure ⟨g, u, d⟩
  | _ => none

/-- The parsed `settings` rebuilt as the JS object the handler forwards. -/
def addLeadsSettingsToJson (s : AddLeadsSettings) : Json :=
  .obj (optField "ignore_global_block_list" Json.bool s.ignore_global_block_list ++
    optField "ignore_unsubscribe_list" Json.bool s.ignore_unsubscribe_list ++
    optField "ignore_duplicate_leads_in_other_campaign" Json.bool
      s.ignore_duplicate_leads_in_other_campaign)

/-- Parsed `AddLeadsSchema` input. -/
structure AddLeadsParams where
  campaign_id : Rat
  lead_list : List LeadRecord
  settings : Option AddLeadsSettings

/-- `AddLeadsSchema`: the lead list is `.max(100)` — at most 100 entries
(the bound is on the supplied array; an empty array passes). -/
def AddLeadsSchema : Json → Option AddLeadsParams
  | .obj fields => do
    let campaign_id ← rfield fields "campaign_id" zodPosInt
    let lead_list ← rfield fields "lead_list" (fun v =>
      match v with
      | .arr xs => if xs.length ≤ 100 then parseList parseLeadRecord xs else none
      | _ => none)
    let settings ← ofield fields "settings" parseAddLeadsSettings
    pure ⟨campaign_id, lead_list, settings⟩
  | _ => none

/-- The member names `AddLeadsSchema` declares. -/
def AddLeadsSchema_keys : List String := ["campaign_id", "lead_list", "settings"]

/-- Parsed `LeadActionSchema` input (pause/unsubscribe/remove one lead). -/
structure LeadActionParams where
  campaign_id : Rat
  lead_id : Rat

/-- `LeadActionSchema`. -/
def LeadActionSchema : Json → Option LeadActionParams
  | .obj fields => do
    let campaign_id ← rfield fields "campaign_id" zodPosInt
    let lead_id ← rfield fields "lead_id" zodPosInt
    pure ⟨campaign_id, lead_id⟩
  | _ => none

/-- The member names `LeadActionSchema` declares. -/
def LeadActionSchema_keys : List String := ["campaign_id", "lead_id"]

/-- Parsed `ResumeLeadSchema` input. -/
structure ResumeLeadParams where
  campaign_id : Rat
  lead_id : Rat
  resume_lead_with_delay_days : Option Rat

/-- `ResumeLeadSchema`. -/
def ResumeLeadSchema : Json → Option ResumeLeadParams
  | .obj fields => do
    let campaign_id ← rfield fields "campaign_id" zodPosInt
    let lead_id ← rfield fields "lead_id" zodPosInt
    let delay ← ofield fields "resume_lead_with_delay_days" zodInt
    pure ⟨campaign_id, lead_id, delay⟩
  | _ => none

/-- The member names `ResumeLeadSchema` declares. -/
def ResumeLeadSchema_keys : List String :=
  ["campaign_id", "lead_id", "resume_lead_with_delay_days"]

/-- Parsed `GetLeadByEmailSchema` input. -/
structure GetLeadByEmailParams where
  email : String

/-- `GetLeadByEmailSchema`. -/
def GetLeadByEmailSchema : Json → Option GetLeadByEmailParams
  | .obj fields => do
    let email ← rfield fields "email" zodEmail
    pure ⟨email⟩
  | _ => none

/-- The member names `GetLeadByEmailSchema` declares. -/
def GetLeadByEmailSchema_keys : List String := ["email"]

/-- Parsed `GetLeadCampaignsSchema` input. -/
structure GetLeadCampaignsParams where
  lead_id : Rat

/-- `GetLeadCampaignsSchema`. -/
def GetLeadCampaignsSchema : Json → Option GetLeadCampaignsParams
  | .obj fields => do
    let lead_id ← rfield fields "lead_id" zodPosInt
    pure ⟨lead_id⟩
  | _ => none

/-- The member names `GetLeadCampaignsSchema` declares. -/
def GetLeadCampaignsSchema_keys : List String := ["lead_id"]

/-- Parsed `ListEmailAccountsSchema` input. -/
structure ListEmailAccountsParams where
  offset : Rat
  limit : Rat

/-- `ListEmailAccountsSchema` (offset defaults to 0, limit to 100). -/
def ListEmailAccountsSchema : Json → Option ListEmailAccountsParams
  | .obj fields => do
    let offset ← dfield fields "offset" 0 zodNonnegInt
    let limit ← dfield fields "limit" 100 (zodIntRange 1 100)
    pure ⟨offset, limit⟩
  | _ => none

/-- The member names `ListEmailAccountsSchema` declares. -/
def ListEmailAccountsSchema_keys : List String := ["offset", "limit"]

/-- Parsed `GetEmailAccountSchema` input. -/
structure GetEmailAccountParams where
  account_id : Rat

/-- `GetEmailAccountSchema`. -/
def GetEmailAccountSchema : Json → Option GetEmailAccountParams
  | .obj fields => do
    let account_id ← rfield fields "account_id" zodPosInt
    pure ⟨account_id⟩
  | _ => none

/-- The member names `GetEmailAccountSchema` declares. -/
def GetEmailAccountSchema_keys : List String := ["account_id"]

/-- Parsed `UpdateWarmupSettingsSchema` input. -/
structure UpdateWarmupSettingsParams where
  email_account_id : Rat
  warmup_enabled : Bool
  total_warmup_per_day : Option Rat
  daily_rampup : Option Rat
  reply_rate_percentage : Option Rat
  warmup_key_id : Option String

/-- `UpdateWarmupSettingsSchema`. -/
def UpdateWarmupSettingsSchema : Json → Option UpdateWarmupSettingsParams
  | .obj fields => do
    let email_account_id ← rfield fields "email_account_id" zodPosInt
    let warmup_enabled ← rfield fields "warmup_enabled" zodBool
    let total ← ofield fields "total_warmup_per_day" zodInt
    let rampup ← ofield fields "daily_rampup" zodInt
    let reply ← ofield fields "reply_rate_percentage" (zodIntRange 0 100)
    let keyid ← ofield fields "warmup_key_id" zodString
    pure ⟨email_account_id, warmup_enabled, total, rampup, reply, keyid⟩
  | _ => none

/-- The member names `UpdateWarmupSettingsSchema` declares. -/
def UpdateWarmupSettingsSchema_keys : List String :=
  ["email_account_id", "warmup_enabled", "total_warmup_per_day", "daily_rampup",
   "reply_rate_percentage", "warmup_key_id"]

/-- The request body `updateWarmupSettings` posts (the destructured rest). -/
def warmupBody (p : UpdateWarmupSettingsParams) : Json :=
  .obj (("warmup_enabled", Json.bool p.warmup_enabled) ::
    (optField "total_warmup_per_day" Json.num p.total_warmup_per_day ++
     optField "daily_rampup" Json.num p.daily_rampup ++
     optField "reply_rate_percentage" Json.num p.reply_rate_percentage ++
     optField "warmup_key_id" Json.str p.warmup_key_id))

/-- Parsed `GetCampaignStatisticsSchema` input. -/
structure GetCampaignStatisticsParams where
  campaign_id : Rat
  offset : Rat
  limit : Rat
  email_sequence_number : Option Rat
  email_status : Option String

/-- `GetCampaignStatisticsSchema` (offset defaults to 0, limit to 100). -/
def GetCampaignStatisticsSchema : Json → Option GetCampaignStatisticsParams
  | .obj fields => do
    let campaign_id ← rfield fields "campaign_id" zodPosInt
    let offset ← dfield fields "offset" 0 zodNonnegInt
    let limit ← dfield fields "limit" 100 (zodIntRange 1 100)
    let esn ← ofield fields "email_sequence_number" zodInt
    let estat ← ofield fields "email_status"
      (zodEnum ["opened", "clicked", "replied", "unsubscribed", "bounced"])
    pure ⟨campaign_id, offset, limit, esn, estat⟩
  | _ => none

/-- The member names `GetCampaignStatisticsSchema` declares. -/
def GetCampaignStatisticsSchema_keys : List String :=
  ["campaign_id", "offset", "limit", "email_sequence_number", "email_status"]

/-- Parsed `GetCampaignAnalyticsByDateSchema` input. -/
structure GetCampaignAnalyticsByDateParams where
  campaign_id : Rat
  start_date : String
  end_date : String

/-- `GetCampaignAnalyticsByDateSchema`. -/
def GetCampaignAnalyticsByDateSchema : Json → Option GetCampaignAnalyticsByDateParams
  | .obj fields => do
    let campaign_id ← rfield fields "campaign_id" zodPosInt
    let start_date ← rfield fields "start_date" zodDateString
    let end_date ← rfield fields "end_date" zodDateString
    pure ⟨campaign_id, start_date, end_date⟩
  | _ => none

/-- The member names `GetCampaignAnalyticsByDateSchema` declares. -/
def GetCampaignAnalyticsByDateSchema_keys : List String :=
  ["campaign_id", "start_date", "end_date"]

/-- Parsed `ManageCampaignEmailAccountsSchema` input. -/
structure ManageCampaignEmailAccountsParams where
  campaign_id : Rat
  email_account_ids : List Rat

/-- `ManageCampaignEmailAccountsSchema` (`email_account_ids` is a non-empty
array of positive integers). -/
def ManageCampaignEmailAccountsSchema : Json → Option ManageCampaignEmailAccountsParams
  | .obj fields => do
    let campaign_id ← rfield fields "campaign_id" zodPosInt
    let ids ← rfield fields "email_account_ids" (fun v =>
      match v with
      | .arr xs => if 1 ≤ xs.length then parseList zodPosInt xs else none
      | _ => none)
    pure ⟨campaign_id, ids⟩
  | _ => none

/-- The member names `ManageCampaignEmailAccountsSchema` declares. -/
def ManageCampaignEmailAccountsSchema_keys : List String :=
  ["campaign_id", "email_account_ids"]

/-- The member names `CreateEmailAccountSchema` declares. -/
def CreateEmailAccountSchema_keys : List String :=
  ["from_name", "from_email", "username", "password", "smtp_host", "smtp_port",
   "imap_host", "imap_port", "message_per_day", "type", "client_id"]

/-- Parsed `CreateEmailAccountSchema` input.  `extra` holds the unrecognized
input members, in input order: the schema is in passthrough mode, so they
are kept in the parsed object rather than stripped. -/
structure CreateEmailAccountParams where
  from_name : String
  from_email : String
  username : String
  password : String
  smtp_host : String
  smtp_port : Rat
  imap_host : String
  imap_port : Rat
  message_per_day : Rat
  connector : String
  client_id : Option Rat
  extra : List (String × Json)

/-- Modelled from the spec: the zod `CreateEmailAccountSchema` is declared in
`src/types/smartlead.ts` but that definition is not among the provided
sources; this parser follows the spec's email-account contract (§3) and the
repository's own `create_email_account` tool declaration in
`src/schemas/email-accounts.ts` (ten required members, optional `client_id`),
with the member checks and the `.passthrough()` mode pinned down by the
repository's schema tests in `src/__tests__/types/smartlead.test.ts`: a
non-empty `from_name`, a well-formed `from_email`, a positive integer
`smtp_port` (the other port and the per-day cap mirror it), the connector
enumeration — and extra caller members validate and are kept in the parsed
data.  The `type` member is named `connector` on the Lean record. -/
def CreateEmailAccountSchema : Json → Option CreateEmailAccountParams
  | .obj fields => do
    let from_name ← rfield fields "from_name" zodNonemptyString
    let from_email ← rfield fields "from_email" zodEmail
    let username ← rfield fields "username" zodString
    let password ← rfield fields "password" zodString
    let smtp_host ← rfield fields "smtp_host" zodString
    let smtp_port ← rfield fields "smtp_port" zodPosInt
    let imap_host ← rfield fields "imap_host" zodString
    let imap_port ← rfield fields "imap_port" zodPosInt
    let message_per_day ← rfield fields "message_per_day" zodPosInt
    let connector ← rfield fields "type" (zodEnum ["SMTP", "GMAIL", "ZOHO", "OUTLOOK"])
    let client_id ← ofield fields "client_id" zodInt
    pure ⟨from_name, from_email, username, password, smtp_host, smtp_port,
          imap_host, imap_port, message_per_day, connector, client_id,
          fields.filter (fun f => !(CreateEmailAccountSchema_keys.contains f.1))⟩
  | _ => none

/-- The parsed create-account object rebuilt as JS (declared members in shape
order, then the passthrough members in input order), as spread into the
posted body. -/
def createEmailAccountToJson (p : CreateEmailAccountParams) : List (String × Json) :=
  [("from_name", Json.str p.from_name),
   ("from_email", Json.str p.from_email),
   ("username", Json.str p.username),
   ("password", Json.str p.password),
   ("smtp_host", Json.str p.smtp_host),
   ("smtp_port", Json.num p.smtp_port),
   ("imap_host", Json.str p.imap_host),
   ("imap_port", Json.num p.imap_port),
   ("message_per_day", Json.num p.message_per_day),
   ("type", Json.str p.connector)] ++
  optField "client_id" Json.num p.client_id ++
  p.extra

/-- The member names `UpdateEmailAccountSchema` declares. -/
def UpdateEmailAccountSchema_keys : List String :=
  ["email_account_id", "from_name", "from_email", "username", "password",
   "smtp_host", "smtp_port", "imap_host", "imap_port", "message_per_day",
   "type", "client_id"]

/-- Parsed `UpdateEmailAccountSchema` input.  `extra` holds the unrecognized
input members kept by passthrough mode. -/
structure UpdateEmailAccountParams where
  email_account_id : Rat
  from_name : Option String
  from_email : Option String
  username : Option String
  password : Option String
  smtp_host : Option String
  smtp_port : Option Rat
  imap_host : Option String
  imap_port : Option Rat
  message_per_day : Option Rat
  connector : Option String
  client_id : Option Rat
  extra : List (String × Json)

/-- Modelled from the spec: the zod `UpdateEmailAccountSchema` is declared in
`src/types/smartlead.ts` but that definition is not among the provided
sources; this parser follows the spec (§3: updates forward partial field
sets; §4.2: identifiers are required positive integers, and some update
inputs deliberately accept and forward unrecognized extra fields) and the
repository's `update_email_account` tool declaration (`email_account_id`
required, every other member optional), with the positive-integer identifier
check and the `.passthrough()` mode pinned down by the repository's schema
tests (`email_account_id: 0` rejects; `extra_setting` is kept in the parsed
data).  The `type` member is named `connector` on the Lean record. -/
def UpdateEmailAccountSchema : Json → Option UpdateEmailAccountParams
  | .obj fields => do
    let email_account_id ← rfield fields "email_account_id" zodPosInt
    let from_name ← ofield fields "from_name" zodString
    let from_email ← ofield fields "from_email" zodEmail
    let username ← ofield fields "username" zodString
    let password ← ofield fields "password" zodString
    let smtp_host ← ofield fields "smtp_host" zodString
    let smtp_port ← ofield fields "smtp_port" zodPosInt
    let imap_host ← ofield fields "imap_host" zodString
    let imap_port ← ofield fields "imap_port" zodPosInt
    let message_per_day ← ofield fields "message_per_day" zodPosInt
    let connector ← ofield fields "type" (zodEnum ["SMTP", "GMAIL", "ZOHO", "OUTLOOK"])
    let client_id ← ofield fields "client_id" zodInt
    pure ⟨email_account_id, from_name, from_email, username, password, smtp_host,
          smtp_port, imap_host, imap_port, message_per_day, connector, client_id,
          fields.filter (fun f => !(UpdateEmailAccountSchema_keys.contains f.1))⟩
  | _ => none

/-- The request body `updateEmailAccount` posts: the destructured rest of the
parsed object — declared optionals in shape order when present, then the
passthrough members. -/
def updateEmailAccountBody (p : UpdateEmailAccountParams) : Json :=
  .obj (optField "from_name" Json.str p.from_name ++
    optField "from_email" Json.str p.from_email ++
    optField "username" Json.str p.username ++
    optField "password" Json.str p.password ++
    optField "smtp_host" Json.str p.smtp_host ++
    optField "smtp_port" Json.num p.smtp_port ++
    optField "imap_host" Json.str p.imap_host ++
    optField "imap_port" Json.num p.imap_port ++
    optField "message_per_day" Json.num p.message_per_day ++
    optField "type" Json.str p.connector ++
    optField "client_id" Json.num p.client_id ++
    p.extra)
/-! ### The tool handlers

One function per tool, mirroring `src/tools/{campaigns,leads,email-accounts,
analytics}.ts`.  Every handler has the same three-step shape, factored into
`runTool`: parse the arguments against the schema (a failure is the thrown
`ZodError`, with no transport request), issue exactly one transport call
built from the validated parameters, and wrap the raw response into the
envelope. -/

/-- A schema `parse` throw: the handler stops before touching the transport. -/
def zodFail : HandlerOut := (.error (.zodError "Invalid input parameters"), [])

/-- The common handler shape: `parse`, then one transport `call` on the
validated parameters, then `render` the raw response into the envelope. -/
def runTool (parse : Json → Option α)
    (call : SmartleadClient → α → Except Caught Json × List Request)
    (render : α → Json → ToolResponse)
    (c : SmartleadClient) (args : Json) : HandlerOut :=
  match parse args with
  | none => zodFail
  | some p => respond (call c p) (render p)

/-- The plain success rendering `JSON.stringify(result, null, 2)` shared by
every campaign and lead handler. -/
def renderJson (_ : α) (d : Json) : ToolResponse :=
  textResponse (stringify d)

/-- The body posted by `createCampaign`:
`{name: ..., ...(params.client_id && {client_id: ...})}` — the spread is
guarded by JS truthiness, so a `client_id` of `0` adds nothing. -/
def createCampaignBody (p : CreateCampaignParams) : Json :=
  .obj (("name", Json.str p.name) ::
    (match p.client_id with
     | some q => if q == 0 then [] else [("client_id", Json.num q)]
     | none => []))

/-- `createCampaign` (tool `create_campaign`). -/
def createCampaign : SmartleadClient → Json → HandlerOut :=
  runTool CreateCampaignSchema
    (fun c p => c.post "/campaigns/create" (some (createCampaignBody p)) [])
    renderJson

/-- `getCampaign` (tool `get_campaign`). -/
def getCampaign : SmartleadClient → Json → HandlerOut :=
  runTool GetCampaignSchema
    (fun c p => c.get ("/campaigns/" ++ ratToString p.campaign_id) [])
    renderJson

/-- `listCampaigns` (tool `list_campaigns`; takes no arguments). -/
def listCampaigns (c : SmartleadClient) (_args : Json) : HandlerOut :=
  respond (c.get "/campaigns" []) (fun d => textResponse (stringify d))

/-- `updateCampaignSchedule` (tool `update_campaign_schedule`). -/
def updateCampaignSchedule : SmartleadClient → Json → HandlerOut :=
  runTool UpdateCampaignScheduleSchema
    (fun c p => c.post ("/campaigns/" ++ ratToString p.campaign_id ++ "/schedule")
      (some (scheduleBody p)) [])
    renderJson

/-- `updateCampaignSettings` (tool `update_campaign_settings`). -/
def updateCampaignSettings : SmartleadClient → Json → HandlerOut :=
  runTool UpdateCampaignSettingsSchema
    (fun c p => c.post ("/campaigns/" ++ ratToString p.campaign_id ++ "/settings")
      (some (settingsBody p)) [])
    renderJson

/-- `updateCampaignStatus` (tool `update_campaign_status`). -/
def updateCampaignStatus : SmartleadClient → Json → HandlerOut :=
  runTool UpdateCampaignStatusSchema
    (fun c p => c.post ("/campaigns/" ++ ratToString p.campaign_id ++ "/status")
      (some (.obj [("status", Json.str p.status)])) [])
    renderJson

/-- `deleteCampaign` (tool `delete_campaign`). -/
def deleteCampaign : SmartleadClient → Json → HandlerOut :=
  runTool GetCampaignSchema
    (fun c p => c.delete ("/campaigns/" ++ ratToString p.campaign_id) none [])
    renderJson

/-- `listCampaignEmailAccounts` (tool `list_campaign_email_accounts`). -/
def listCampaignEmailAccounts : SmartleadClient → Json → HandlerOut :=
  runTool GetCampaignSchema
    (fun c p => c.get ("/campaigns/" ++ ratToString p.campaign_id ++ "/email-accounts") [])
    renderJson

/-- `addCampaignEmailAccounts` (tool `add_campaign_email_accounts`). -/
def addCampaignEmailAccounts : SmartleadClient → Json → HandlerOut :=
  runTool ManageCampaignEmailAccountsSchema
    (fun c p => c.post ("/campaigns/" ++ ratToString p.campaign_id ++ "/email-accounts")
      (some (.obj [("email_account_ids", Json.arr (p.email_account_ids.map Json.num))])) [])
    renderJson

/-- `removeCampaignEmailAccounts` (tool `remove_campaign_email_accounts`). -/
def removeCampaignEmailAccounts : SmartleadClient → Json → HandlerOut :=
  runTool ManageCampaignEmailAccountsSchema
    (fun c p => c.delete ("/campaigns/" ++ ratToString p.campaign_id ++ "/email-accounts")
      (some (.obj [("email_account_ids", Json.arr (p.email_account_ids.map Json.num))])) [])
    renderJson

/-- `listCampaignLeads` (tool `list_campaign_leads`): the validated (or
defaulted) `offset` and `limit` become the query parameters. -/
def listCampaignLeads : SmartleadClient → Json → HandlerOut :=
  runTool ListCampaignLeadsSchema
    (fun c p => c.get ("/campaigns/" ++ ratToString p.campaign_id ++ "/leads")
      [("offset", Json.num p.offset), ("limit", Json.num p.limit)])
    renderJson

/-- The body posted by `addLeadsToCampaign`:
`{lead_list: ..., ...(params.settings && {settings: ...})}` — an object is
always truthy, so a present `settings` is always forwarded. -/
def addLeadsBody (p : AddLeadsParams) : Json :=
  .obj (("lead_list", Json.arr (p.lead_list.map leadToJson)) ::
    (match p.settings with
     | some s => [("settings", addLeadsSettingsToJson s)]
     | none => []))

/-- `addLeadsToCampaign` (tool `add_leads_to_campaign`). -/
def addLeadsToCampaign : SmartleadClient → Json → HandlerOut :=
  runTool AddLeadsSchema
    (fun c p => c.post ("/campaigns/" ++ ratToString p.campaign_id ++ "/leads")
      (some (addLeadsBody p)) [])
    renderJson

/-- `pauseLead` (tool `pause_lead`; posts no body). -/
def pauseLead : SmartleadClient → Json → HandlerOut :=
  runTool LeadActionSchema
    (fun c p => c.post ("/campaigns/" ++ ratToString p.campaign_id ++ "/leads/" ++
      ratToString p.lead_id ++ "/pause") none [])
    renderJson

/-- The body posted by `resumeLead`: empty when the optional delay is absent
(an explicit `!== undefined` check, not a truthiness guard). -/
def resumeLeadBody (p : ResumeLeadParams) : Json :=
  .obj (match p.resume_lead_with_delay_days with
    | some d => [("resume_lead_with_delay_days", Json.num d)]
    | none => [])

/-- `resumeLead` (tool `resume_lead`). -/
def resumeLead : SmartleadClient → Json → HandlerOut :=
  runTool ResumeLeadSchema
    (fun c p => c.post ("/campaigns/" ++ ratToString p.campaign_id ++ "/leads/" ++
      ratToString p.lead_id ++ "/resume") (some (resumeLeadBody p)) [])
    renderJson

/-- `deleteLeadFromCampaign` (tool `delete_lead_from_campaign`). -/
def deleteLeadFromCampaign : SmartleadClient → Json → HandlerOut :=
  runTool LeadActionSchema
    (fun c p => c.delete ("/campaigns/" ++ ratToString p.campaign_id ++ "/leads/" ++
      ratToString p.lead_id) none [])
    renderJson

/-- `unsubscribeLeadFromCampaign` (tool `unsubscribe_lead_from_campaign`). -/
def unsubscribeLeadFromCampaign : SmartleadClient → Json → HandlerOut :=
  runTool LeadActionSchema
    (fun c p => c.post ("/campaigns/" ++ ratToString p.campaign_id ++ "/leads/" ++
      ratToString p.lead_id ++ "/unsubscribe") none [])
    renderJson

/-- `getLeadByEmail` (tool `get_lead_by_email`): the validated email becomes
the query parameter. -/
def getLeadByEmail : SmartleadClient → Json → HandlerOut :=
  runTool GetLeadByEmailSchema
    (fun c p => c.get "/leads" [("email", Json.str p.email)])
    renderJson

/-- `unsubscribeLeadGlobally` (tool `unsubscribe_lead_globally`). -/
def unsubscribeLeadGlobally : SmartleadClient → Json → HandlerOut :=
  runTool GetLeadCampaignsSchema
    (fun c p => c.post ("/leads/" ++ ratToString p.lead_id ++ "/unsubscribe") none [])
    renderJson

/-- `getLeadCampaigns` (tool `get_lead_campaigns`). -/
def getLeadCampaigns : SmartleadClient → Json → HandlerOut :=
  runTool GetLeadCampaignsSchema
    (fun c p => c.get ("/leads/" ++ ratToString p.lead_id ++ "/campaigns") [])
    renderJson

/-- The `.length` access interpolated into the list-email-accounts message:
an array's element count, a string's length, an object's own `length` member
(else `undefined`), and `undefined` for the primitives.  Accessing `.length`
on `null` in the program would instead throw a `TypeError`; the model prints
`undefined` there, and no theorem evaluates this message at a `null`
response. -/
def jsLengthStr : Json → String
  | .arr xs => toString xs.length
  | .str s => toString s.length
  | .obj fields =>
    match jsGet fields "length" with
    | some v => jsToString v
    | none => "undefined"
  | .num _ => "undefined"
  | .bool _ => "undefined"
  | .null => "undefined"

/-- `listEmailAccounts` (tool `list_email_accounts`): note the prose prefix
before the serialized response. -/
def listEmailAccounts : SmartleadClient → Json → HandlerOut :=
  runTool ListEmailAccountsSchema
    (fun c p => c.get "/email-accounts"
      [("offset", Json.num p.offset), ("limit", Json.num p.limit)])
    (fun _ d => textResponse
      ("Found " ++ jsLengthStr d ++ " email accounts:\n\n" ++ stringify d))

/-- `getEmailAccount` (tool `get_email_account`). -/
def getEmailAccount : SmartleadClient → Json → HandlerOut :=
  runTool GetEmailAccountSchema
    (fun c p => c.get ("/email-accounts/" ++ ratToString p.account_id ++ "/") [])
    (fun _ d => textResponse ("Email account details:\n\n" ++ stringify d))

/-- `updateWarmupSettings` (tool `update_warmup_settings`): the message is
built from the input, not from the response. -/
def updateWarmupSettings : SmartleadClient → Json → HandlerOut :=
  runTool UpdateWarmupSettingsSchema
    (fun c p => c.post ("/email-accounts/" ++ ratToString p.email_account_id ++ "/warmup")
      (some (warmupBody p)) [])
    (fun p _ => textResponse
      ("Warmup settings updated successfully for email account " ++
       ratToString p.email_account_id ++ ".\n\nWarmup enabled: " ++
       (if p.warmup_enabled then "true" else "false")))

/-- `getWarmupStats` (tool `get_warmup_stats`). -/
def getWarmupStats : SmartleadClient → Json → HandlerOut :=
  runTool GetEmailAccountSchema
    (fun c p => c.get ("/email-accounts/" ++ ratToString p.account_id ++ "/warmup-stats") [])
    (fun p d => textResponse
      ("Warmup stats for email account " ++ ratToString p.account_id ++
       " (last 7 days):\n\n" ++ stringify d))

/-- `reconnectFailedAccounts` (tool `reconnect_failed_accounts`; posts an
empty object, takes no arguments). -/
def reconnectFailedAccounts (c : SmartleadClient) (_args : Json) : HandlerOut :=
  respond (c.post "/email-accounts/reconnect-failed-email-accounts"
      (some (.obj [])) [])
    (fun d => textResponse
      ("Reconnection process initiated for failed email accounts.\n\n" ++ stringify d))

/-- `createEmailAccount` (tool `create_email_account`): the posted body is
`{id: null, ...params}` — the explicit `null` marks creation. -/
def createEmailAccount : SmartleadClient → Json → HandlerOut :=
  runTool CreateEmailAccountSchema
    (fun c p => c.post "/email-accounts/save"
      (some (.obj (("id", Json.null) :: createEmailAccountToJson p))) [])
    (fun _ d => textResponse ("Email account created successfully:\n\n" ++ stringify d))

/-- `updateEmailAccount` (tool `update_email_account`). -/
def updateEmailAccount : SmartleadClient → Json → HandlerOut :=
  runTool UpdateEmailAccountSchema
    (fun c p => c.post ("/email-accounts/" ++ ratToString p.email_account_id)
      (some (updateEmailAccountBody p)) [])
    (fun p d => textResponse
      ("Email account " ++ ratToString p.email_account_id ++
       " updated successfully:\n\n" ++ stringify d))

/-- The query built by `getCampaignStatistics`: `offset` and `limit` always,
the two filters only under an explicit `!== undefined` check. -/
def statisticsQuery (p : GetCampaignStatisticsParams) : List (String × Json) :=
  [("offset", Json.num p.offset), ("limit", Json.num p.limit)] ++
  optField "email_sequence_number" Json.num p.email_sequence_number ++
  optField "email_status" Json.str p.email_status

/-- `getCampaignStatistics` (tool `get_campaign_statistics`). -/
def getCampaignStatistics : SmartleadClient → Json → HandlerOut :=
  runTool GetCampaignStatisticsSchema
    (fun c p => c.get ("/campaigns/" ++ ratToString p.campaign_id ++ "/statistics")
      (statisticsQuery p))
    (fun p d => textResponse
      ("Campaign " ++ ratToString p.campaign_id ++ " statistics:\n\n" ++ stringify d))

/-- `getCampaignAnalytics` (tool `get_campaign_analytics`). -/
def getCampaignAnalytics : SmartleadClient → Json → HandlerOut :=
  runTool GetCampaignSchema
    (fun c p => c.get ("/campaigns/" ++ ratToString p.campaign_id ++ "/analytics") [])
    (fun p d => textResponse
      ("Campaign " ++ ratToString p.campaign_id ++ " analytics:\n\n" ++ stringify d))

/-- `getCampaignAnalyticsByDate` (tool `get_campaign_analytics_by_date`):
the validated dates are forwarded verbatim as query parameters. -/
def getCampaignAnalyticsByDate : SmartleadClient → Json → HandlerOut :=
  runTool GetCampaignAnalyticsByDateSchema
    (fun c p => c.get ("/campaigns/" ++ ratToString p.campaign_id ++ "/analytics-by-date")
      [("start_date", Json.str p.start_date), ("end_date", Json.str p.end_date)])
    (fun p d => textResponse
      ("Campaign " ++ ratToString p.campaign_id ++ " analytics from " ++
       p.start_date ++ " to " ++ p.end_date ++ ":\n\n" ++ stringify d))

/-! ### Registry, dispatch and the server boundary -/

/-- The handler registry of `src/tools/index.ts`: tool name to handler, in
declaration order. -/
def toolHandlers : List (String × (SmartleadClient → Json → HandlerOut)) :=
  [("create_campaign", createCampaign),
   ("get_campaign", getCampaign),
   ("list_campaigns", listCampaigns),
   ("update_campaign_schedule", updateCampaignSchedule),
   ("update_campaign_settings", updateCampaignSettings),
   ("update_campaign_status", updateCampaignStatus),
   ("delete_campaign", deleteCampaign),
   ("list_campaign_email_accounts", listCampaignEmailAccounts),
   ("add_campaign_email_accounts", addCampaignEmailAccounts),
   ("remove_campaign_email_accounts", removeCampaignEmailAccounts),
   ("list_campaign_leads", listCampaignLeads),
   ("add_leads_to_campaign", addLeadsToCampaign),
   ("pause_lead", pauseLead),
   ("resume_lead", resumeLead),
   ("delete_lead_from_campaign", deleteLeadFromCampaign),
   ("unsubscribe_lead_from_campaign", unsubscribeLeadFromCampaign),
   ("get_lead_by_email", getLeadByEmail),
   ("unsubscribe_lead_globally", unsubscribeLeadGlobally),
   ("get_lead_campaigns", getLeadCampaigns),
   ("list_email_accounts", listEmailAccounts),
   ("get_email_account", getEmailAccount),
   ("update_warmup_settings", updateWarmupSettings),
   ("get_warmup_stats", getWarmupStats),
   ("reconnect_failed_accounts", reconnectFailedAccounts),
   ("create_email_account", createEmailAccount),
   ("update_email_account", updateEmailAccount),
   ("get_campaign_statistics", getCampaignStatistics),
   ("get_campaign_analytics", getCampaignAnalytics),
   ("get_campaign_analytics_by_date", getCampaignAnalyticsByDate)]

/-- The own handler assigned to a name in the registry object literal, if
any. -/
def ownHandler (name : String) :
    Option (SmartleadClient → Json → HandlerOut) :=
  (toolHandlers.find? (fun p => p.1 == name)).map Prod.snd

/-- The property names every plain object inherits from `Object.prototype`.
`toolHandlers` is a plain object literal, so the bracket access
`toolHandlers[toolName]` finds these members even though they are not
registry entries, and all of them are truthy values. -/
def objectPrototypeKeys : List String :=
  ["constructor", "hasOwnProperty", "isPrototypeOf", "propertyIsEnumerable",
   "toLocaleString", "toString", "valueOf", "__proto__", "__defineGetter__",
   "__defineSetter__", "__lookupGetter__", "__lookupSetter__"]

/-- What the property access `toolHandlers[toolName]` evaluates to: an own
registry entry, a member inherited from `Object.prototype`, or `undefined`. -/
inductive PropertyHit where
  | handler (h : SmartleadClient → Json → HandlerOut)
  | inherited
  | absent

/-- Registry lookup (`toolHandlers[toolName]`): JS property access walks the
prototype chain, so an own assignment wins, a name of an `Object.prototype`
member yields that inherited (truthy) value, and only the rest are
`undefined`. -/
def lookupHandler (name : String) : PropertyHit :=
  match ownHandler name with
  | some h => .handler h
  | none => if name ∈ objectPrototypeKeys then .inherited else .absent

/-- The outcome of `handler(client, args)` when the lookup found an inherited
`Object.prototype` member: the `!handler` guard saw a truthy value, so the
Unknown-tool throw is skipped and the member itself is invoked (with `this`
undefined, as the program runs in strict mode).  Concretely,
`Object.prototype.toString` resolves with the plain string
`[object Undefined]`, `constructor` (the `Object` function) resolves with its
first argument, and every other member — including the non-callable value of
`__proto__` — raises a `TypeError`.  The model records each such invocation
as the failure it surfaces to the caller, with a fixed descriptive message
(engine message texts vary); no theorem depends on more than that the
outcome is not the Unknown-tool error and that no transport request is
issued. -/
def invokeInherited (name : String) : HandlerOut :=
  (.error (.jsError ("TypeError: inherited Object.prototype member " ++ name ++
    " invoked as a tool handler")), [])

/-- `executeTool`: dispatch by the property access `toolHandlers[toolName]`.
Only a name that is neither a registry key nor an `Object.prototype` member
reaches the `Unknown tool: <name>` throw; no branch but a registered handler
ever issues a transport request. -/
def executeTool (name : String) (c : SmartleadClient) (args : Json) : HandlerOut :=
  match lookupHandler name with
  | .handler h => h c args
  | .inherited => invokeInherited name
  | .absent => (.error (.jsError ("Unknown tool: " ++ name)), [])

/-- `hasToolHandler` (`toolName in toolHandlers`): the `in` operator also
consults the prototype chain. -/
def hasToolHandler (name : String) : Bool :=
  (ownHandler name).isSome || name ∈ objectPrototypeKeys

/-- JS `String.prototype.includes`. -/
def strContains (s pat : String) : Bool :=
  s.data.tails.any (fun t => pat.data.isPrefixOf t)

/-- The error categorization of the server's call-tool handler
(`src/server.ts`): a `ZodError` by name, then message-content checks for API
and unknown-tool errors, a generic `Error` label otherwise, and a fixed
label and message for non-`Error` throw values. -/
def categorize : Caught → String × String
  | .zodError m => ("Validation Error", "Invalid input: " ++ m)
  | .jsError m =>
    if strContains m "Smartlead API error" then ("API Error", m)
    else if strContains m "Unknown tool" then ("Tool Error", m)
    else ("Error", m)
  | .nonError => ("Unknown Error", "An unexpected error occurred")

/-- The server's call-tool request handler: the tool result on success, and
on any throw the failure envelope `"<ErrorCategory>: <message>"` with
`isError: true` — nothing escapes the catch. -/
def callToolRequestHandler (c : SmartleadClient) (name : String) (args : Json) :
    ToolResponse × List Request :=
  match executeTool name c args with
  | (.ok res, t) => (res, t)
  | (.error e, t) =>
    (⟨[⟨"text", (categorize e).1 ++ ": " ++ (categorize e).2⟩], some true⟩, t)

/-! ### Shared infrastructure for the claim theorems -/

/-- A handler outcome that is a validation rejection reached before the
transport: no request was issued, and the error is the thrown `ZodError`. -/
def rejectedByValidation (out : HandlerOut) : Prop :=
  out.2 = [] ∧ ∃ m, out.1 = .error (.zodError m)

/-- A client whose upstream always answers `null`; used to instantiate
universally quantified theorems at a concrete client. -/
def mockClient : SmartleadClient := ⟨"test-key", fun _ => .ok Json.null⟩

theorem runTool_parse_none {α : Type} {parse : Json → Option α} {call render c args}
    (h : parse args = none) : runTool parse call render c args = zodFail := by
  simp [runTool, h]

theorem zodFail_rejected : rejectedByValidation zodFail :=
  ⟨rfl, "Invalid input parameters", rfl⟩

theorem runTool_rejectedBy {α : Type} {parse : Json → Option α} {call render c args}
    (h : parse args = none) : rejectedByValidation (runTool parse call render c args) := by
  rw [runTool_parse_none h]; exact zodFail_rejected

theorem runTool_parse_some {α : Type} {parse : Json → Option α} {call render c args}
    {p : α} (h : parse args = some p) :
    runTool parse call render c args = respond (call c p) (render p) := by
  simp [runTool, h]

theorem send_trace (c : SmartleadClient) (v : Verb) (ep : String) (b : Option Json)
    (ps : List (String × Json)) :
    (c.send v ep b ps).2 = [⟨v, ep, ("api_key", .str c.apiKey) :: ps, b⟩] := rfl

theorem zodPosInt_bad (q : Rat) (h : q.den ≠ 1 ∨ q ≤ 0) :
    zodPosInt (.num q) = none := by
  rw [zodPosInt, if_neg]
  rintro ⟨h1, h2⟩
  rcases h with h | h
  · exact h h1
  · exact absurd h2 (not_lt.mpr h)

theorem zodIntRange_bad (lo hi q : Rat) (h : q < lo ∨ hi < q) :
    zodIntRange lo hi (.num q) = none := by
  rw [zodIntRange, if_neg]
  rintro ⟨_, h2, h3⟩
  rcases h with h | h
  · exact absurd h2 (not_le.mpr h)
  · exact absurd h3 (not_le.mpr h)

theorem zodNonnegInt_bad (q : Rat) (h : q < 0) :
    zodNonnegInt (.num q) = none := by
  rw [zodNonnegInt, if_neg]
  rintro ⟨_, h2⟩
  exact absurd h2 (not_le.mpr h)

/-! ### C7: dispatch of an unregistered tool name -/

/-- C2: `handleError` embeds a structured upstream error body and the status
code, appends the invalid-credentials hint exactly for 401/403, the
resource-not-found hint exactly for 404 and the rate-limit hint exactly for
429; a request with no response yields the distinct no-response message; a
plain `Error` passes through unchanged; a non-`Error` throw value yields the
generic unknown-error message; and a failed `send` surfaces exactly the
normalized message. -/
theorem C2_handleError_spec :
    (∀ (status : Nat) (d : Json) (t m : String), errField d = some (.str t) →
        handleError (.httpResponse status (some d) m) =
          "Smartlead API error (" ++ toString status ++ "): " ++ t ++ statusHint status) ∧
    (∀ status : Nat,
        (statusHint status = " - Check your API key is valid" ↔
          status = 401 ∨ status = 403) ∧
        (statusHint status = " - Resource not found" ↔ status = 404) ∧
        (statusHint status = " - Rate limit exceeded, please try again later" ↔
          status = 429)) ∧
    handleError .noResponse =
      "No response received from Smartlead API. Check your network connection." ∧
    (∀ m, handleError (.errorValue m) = m) ∧
    handleError .nonError = "Unknown error occurred" ∧
    (∀ (c : SmartleadClient) (v : Verb) (ep : String) (b : Option Json)
        (ps : List (String × Json)) (e : Thrown),
        c.upstream ⟨v, ep, ("api_key", .str c.apiKey) :: ps, b⟩ = .threw e →
        (c.send v ep b ps).1 = .error (.jsError (handleError e))) := by
  refine ⟨?_, ?_, rfl, fun m => rfl, rfl, ?_⟩
  · intro status d t m hf
    simp [handleError, hf, jsToString, String.append_assoc]
  · intro status
    refine ⟨?_, ?_, ?_⟩ <;> (
      unfold statusHint
      split_ifs with c1 c2 c3 <;>
        simp_all <;> omega)
  · intro c v ep b ps e hup
    simp [SmartleadClient.send, hup]

/-- Witness for C2: the 404 scenario with the body
`{error: "Campaign not found"}` produces the embedded text plus the
resource-not-found hint. -/
theorem C2_handleError_spec_witness :
    handleError (.httpResponse 404 (some (.obj [("error", .str "Campaign not found")])) "") =
      "Smartlead API error (404): Campaign not found - Resource not found" := by
  have h := C2_handleError_spec.1 404 (.obj [("error", .str "Campaign not found")])
    "Campaign not found" "" rfl
  exact h.trans rfl

/-! ### C10: API-key injection on every outbound request -/

theorem jsGet_none_of_not_mem (k : String) (ps : List (String × Json))
    (h : k ∉ ps.map Prod.fst) : jsGet ps k = none := by
  induction ps with
  | nil => rfl
  | cons p rest ih =>
    obtain ⟨k2, v⟩ := p
    simp only [List.map_cons, List.mem_cons] at h
    push_neg at h
    obtain ⟨h1, h2⟩ := h
    rw [jsGet, ih h2]
    simp only []
    rw [if_neg]
    intro hb
    exact h1 (beq_iff_eq.mp hb).symm

/-- The client used for the C10 counterexample. -/
def overrideClient : SmartleadClient := ⟨"configured-key", fun _ => .ok Json.null⟩

/-- C10 counterexample: when the caller-supplied query parameters themselves
assign `api_key`, the object spread `{api_key: ..., ...params}` lets the
caller's assignment win, so the outgoing request is not authenticated with
the configured key. -/
theorem C10_counterexample :
    (overrideClient.get "/campaigns" [("api_key", Json.str "attacker-key")]).2 =
      [⟨.get, "/campaigns",
        [("api_key", Json.str "configured-key"), ("api_key", Json.str "attacker-key")],
        none⟩] ∧
    jsGet [("api_key", Json.str "configured-key"), ("api_key", Json.str "attacker-key")]
        "api_key" = some (Json.str "attacker-key") ∧
    ("attacker-key" : String) ≠ overrideClient.apiKey :=
  ⟨rfl, rfl, by decide⟩

/-- C10 amended: every request sent by `get`/`post`/`delete` (all of which go
through `send`) carries the query assignments `api_key` first followed by all
caller-supplied parameters; whenever the caller-supplied parameters do not
themselves assign `api_key`, the effective `api_key` is the configured key
(a caller-supplied `api_key` instead overrides it, as the counterexample
shows). -/
theorem C10_api_key_merged (c : SmartleadClient) (v : Verb) (ep : String)
    (b : Option Json) (ps : List (String × Json))
    (h : "api_key" ∉ ps.map Prod.fst) :
    ∀ req ∈ (c.send v ep b ps).2,
      req.params = ("api_key", Json.str c.apiKey) :: ps ∧
      jsGet req.params "api_key" = some (Json.str c.apiKey) ∧
      ∀ kv ∈ ps, kv ∈ req.params := by
  intro req hreq
  rw [send_trace] at hreq
  simp only [List.mem_singleton] at hreq
  subst hreq
  refine ⟨rfl, ?_, fun kv hkv => List.mem_cons_of_mem _ hkv⟩
  show jsGet (("api_key", Json.str c.apiKey) :: ps) "api_key" = some (Json.str c.apiKey)
  rw [jsGet, jsGet_none_of_not_mem "api_key" ps h]
  simp

/-- Witness for C10 at a concrete caller parameter list without `api_key`. -/
theorem C10_api_key_merged_witness :
    ("api_key" ∉ ([("offset", Json.num 0)].map Prod.fst)) ∧
    ∀ req ∈ (mockClient.send .get "/campaigns" none [("offset", Json.num 0)]).2,
      req.params = ("api_key", Json.str mockClient.apiKey) :: [("offset", Json.num 0)] ∧
      jsGet req.params "api_key" = some (Json.str mockClient.apiKey) ∧
      ∀ kv ∈ [("offset", Json.num 0)], kv ∈ req.params :=
  ⟨by decide, C10_api_key_merged mockClient .get "/campaigns" none
    [("offset", Json.num 0)] (by decide)⟩

/-! ### C1: the shape of the success envelope -/

/-- The mocked upstream response `{id: 1, name: "X"}` of the round-trip
scenario. -/
def mockCampaignResponse : Json := .obj [("id", Json.num 1), ("name", Json.str "X")]

/-- A client mocking the create-campaign upstream. -/
def createMockedClient : SmartleadClient := ⟨"test-key", fun _ => .ok mockCampaignResponse⟩

/-- A client mocking an empty email-account list upstream. -/
def listMockedClient : SmartleadClient := ⟨"test-key", fun _ => .ok (.arr [])⟩

/-- C1, evaluated at the failing input: `create_campaign` does return a
single text block holding exactly `JSON.stringify` of the mocked upstream
response, but `list_email_accounts` (cited by the claim) prefixes prose
(`Found 0 email accounts:`) to the serialized response, so its text is not
the JSON serialization of the upstream value — contradicting the claim (and
the changelog's statement that every tool response is pure JSON). -/
theorem C1_envelope_shape_divergence :
    (executeTool "create_campaign" createMockedClient (.obj [("name", Json.str "X")])).1 =
      .ok ⟨[⟨"text", stringify mockCampaignResponse⟩], none⟩ ∧
    stringify mockCampaignResponse = "\x7b\n  \"id\": 1,\n  \"name\": \"X\"\n\x7d" ∧
    (executeTool "list_email_accounts" listMockedClient (.obj [])).1 =
      .ok ⟨[⟨"text", "Found 0 email accounts:\n\n" ++ stringify (Json.arr [])⟩], none⟩ ∧
    "Found 0 email accounts:\n\n" ++ stringify (Json.arr []) ≠ stringify (Json.arr []) :=
  ⟨rfl, rfl, rfl, by decide⟩

/-! ### C3: pagination bounds and defaults -/

theorem getField_obj {args : Json} {k : String} {v : Json} (h : args.getField k = some v) :
    ∃ fields, args = .obj fields ∧ jsGet fields k = some v := by
  cases args with
  | obj fields => exact ⟨fields, rfl, h⟩
  | null => exact absurd h (by simp [Json.getField])
  | bool b => exact absurd h (by simp [Json.getField])
  | num n => exact absurd h (by simp [Json.getField])
  | str s => exact absurd h (by simp [Json.getField])
  | arr l => exact absurd h (by simp [Json.getField])

theorem dfield_present {α : Type} {fields : List (String × Json)} {k : String} {v : Json}
    {d : α} {f : Json → Option α} (hf : jsGet fields k = some v) :
    dfield fields k d f = f v := by simp [dfield, hf]

theorem ListCampaignLeadsSchema_bad_limit (fields : List (String × Json)) (q : Rat)
    (hf : jsGet fields "limit" = some (.num q)) (hq : q < 1 ∨ 100 < q) :
    ListCampaignLeadsSchema (.obj fields) = none := by
  cases hcid : rfield fields "campaign_id" zodPosInt with
  | none => simp [ListCampaignLeadsSchema, hcid]
  | some cid =>
    cases hoff : dfield fields "offset" 0 zodNonnegInt with
    | none => simp [ListCampaignLeadsSchema, hcid, hoff]
    | some off =>
      simp [ListCampaignLeadsSchema, hcid, hoff, dfield_present hf,
        zodIntRange_bad 1 100 q hq]

theorem ListCampaignLeadsSchema_bad_offset (fields : List (String × Json)) (q : Rat)
    (hf : jsGet fields "offset" = some (.num q)) (hq : q < 0) :
    ListCampaignLeadsSchema (.obj fields) = none := by
  cases hcid : rfield fields "campaign_id" zodPosInt with
  | none => simp [ListCampaignLeadsSchema, hcid]
  | some cid =>
    simp [ListCampaignLeadsSchema, hcid, dfield_present hf, zodNonnegInt_bad q hq]

theorem ListEmailAccountsSchema_bad_limit (fields : List (String × Json)) (q : Rat)
    (hf : jsGet fields "limit" = some (.num q)) (hq : q < 1 ∨ 100 < q) :
    ListEmailAccountsSchema (.obj fields) = none := by
  cases hoff : dfield fields "offset" 0 zodNonnegInt with
  | none => simp [ListEmailAccountsSchema, hoff]
  | some off =>
    simp [ListEmailAccountsSchema, hoff, dfield_present hf, zodIntRange_bad 1 100 q hq]

theorem ListEmailAccountsSchema_bad_offset (fields : List (String × Json)) (q : Rat)
    (hf : jsGet fields "offset" = some (.num q)) (hq : q < 0) :
    ListEmailAccountsSchema (.obj fields) = none := by
  simp [ListEmailAccountsSchema, dfield_present hf, zodNonnegInt_bad q hq]

theorem GetCampaignStatisticsSchema_bad_limit (fields : List (String × Json)) (q : Rat)
    (hf : jsGet fields "limit" = some (.num q)) (hq : q < 1 ∨ 100 < q) :
    GetCampaignStatisticsSchema (.obj fields) = none := by
  cases hcid : rfield fields "campaign_id" zodPosInt with
  | none => simp [GetCampaignStatisticsSchema, hcid]
  | some cid =>
    cases hoff : dfield fields "offset" 0 zodNonnegInt with
    | none => simp [GetCampaignStatisticsSchema, hcid, hoff]
    | some off =>
      simp [GetCampaignStatisticsSchema, hcid, hoff, dfield_present hf,
        zodIntRange_bad 1 100 q hq]

theorem GetCampaignStatisticsSchema_bad_offset (fields : List (String × Json)) (q : Rat)
    (hf : jsGet fields "offset" = some (.num q)) (hq : q < 0) :
    GetCampaignStatisticsSchema (.obj fields) = none := by
  cases hcid : rfield fields "campaign_id" zodPosInt with
  | none => simp [GetCampaignStatisticsSchema, hcid]
  | some cid =>
    simp [GetCampaignStatisticsSchema, hcid, dfield_present hf, zodNonnegInt_bad q hq]

/-- The operations that take the shared pagination parameters. -/
def paginatedTools : List String :=
  ["list_campaign_leads", "list_email_accounts", "get_campaign_statistics"]

/-- C3: for the paginated operations, a `limit` above 100 or below 1, or a
negative `offset`, is rejected by validation with no transport request; and
an input omitting both parameters validates with `offset = 0`, `limit = 100`,
which are exactly the query values forwarded to the transport. -/
theorem C3_pagination_bounds_and_defaults :
    (∀ name ∈ paginatedTools, ∀ (c : SmartleadClient) (args : Json) (q : Rat),
        args.getField "limit" = some (.num q) → (q < 1 ∨ 100 < q) →
        rejectedByValidation (executeTool name c args)) ∧
    (∀ name ∈ paginatedTools, ∀ (c : SmartleadClient) (args : Json) (q : Rat),
        args.getField "offset" = some (.num q) → q < 0 →
        rejectedByValidation (executeTool name c args)) ∧
    (∀ c : SmartleadClient,
        (executeTool "list_email_accounts" c (.obj [])).2 =
          [⟨.get, "/email-accounts",
            [("api_key", .str c.apiKey), ("offset", Json.num 0), ("limit", Json.num 100)],
            none⟩]) ∧
    (∀ (c : SmartleadClient) (q : Rat), q.den = 1 → 0 < q →
        (executeTool "list_campaign_leads" c (.obj [("campaign_id", Json.num q)])).2 =
          [⟨.get, "/campaigns/" ++ toString q.num ++ "/leads",
            [("api_key", .str c.apiKey), ("offset", Json.num 0), ("limit", Json.num 100)],
            none⟩]) ∧
    (∀ (c : SmartleadClient) (q : Rat), q.den = 1 → 0 < q →
        (executeTool "get_campaign_statistics" c (.obj [("campaign_id", Json.num q)])).2 =
          [⟨.get, "/campaigns/" ++ toString q.num ++ "/statistics",
            [("api_key", .str c.apiKey), ("offset", Json.num 0), ("limit", Json.num 100)],
            none⟩]) := by
  refine ⟨?_, ?_, fun c => rfl, ?_, ?_⟩
  · intro name hname c args q hf hq
    obtain ⟨fields, rfl, hf⟩ := getField_obj hf
    simp only [paginatedTools, List.mem_cons, List.not_mem_nil, or_false] at hname
    rcases hname with rfl | rfl | rfl
    · exact runTool_rejectedBy (ListCampaignLeadsSchema_bad_limit fields q hf hq)
    · exact runTool_rejectedBy (ListEmailAccountsSchema_bad_limit fields q hf hq)
    · exact runTool_rejectedBy (GetCampaignStatisticsSchema_bad_limit fields q hf hq)
  · intro name hname c args q hf hq
    obtain ⟨fields, rfl, hf⟩ := getField_obj hf
    simp only [paginatedTools, List.mem_cons, List.not_mem_nil, or_false] at hname
    rcases hname with rfl | rfl | rfl
    · exact runTool_rejectedBy (ListCampaignLeadsSchema_bad_offset fields q hf hq)
    · exact runTool_rejectedBy (ListEmailAccountsSchema_bad_offset fields q hf hq)
    · exact runTool_rejectedBy (GetCampaignStatisticsSchema_bad_offset fields q hf hq)
  · intro c q hden h0
    have hp : ListCampaignLeadsSchema (.obj [("campaign_id", .num q)]) = some ⟨q, 0, 100⟩ := by
      simp [ListCampaignLeadsSchema, rfield, dfield, jsGet, zodPosInt, hden, h0]
    show (runTool ListCampaignLeadsSchema
      (fun c p => c.get ("/campaigns/" ++ ratToString p.campaign_id ++ "/leads")
        [("offset", Json.num p.offset), ("limit", Json.num p.limit)])
      renderJson c (.obj [("campaign_id", Json.num q)])).2 = _
    rw [runTool_parse_some hp]
    simp [respond, SmartleadClient.get, send_trace, ratToString, hden]
  · intro c q hden h0
    have hp : GetCampaignStatisticsSchema (.obj [("campaign_id", .num q)]) =
        some ⟨q, 0, 100, none, none⟩ := by
      simp [GetCampaignStatisticsSchema, rfield, dfield, ofield, jsGet, zodPosInt, hden, h0]
    show (runTool GetCampaignStatisticsSchema
      (fun c p => c.get ("/campaigns/" ++ ratToString p.campaign_id ++ "/statistics")
        (statisticsQuery p))
      (fun p d => textResponse
        ("Campaign " ++ ratToString p.campaign_id ++ " statistics:\n\n" ++ stringify d))
      c (.obj [("campaign_id", Json.num q)])).2 = _
    rw [runTool_parse_some hp]
    simp [respond, SmartleadClient.get, send_trace, ratToString, hden,
      statisticsQuery, optField]

/-- Witness for C3 at concrete inputs: `limit = 101` and `limit = 0` and
`offset = -1` reject for `list_campaign_leads`, and the empty input forwards
the defaults for `list_email_accounts`. -/
theorem C3_pagination_bounds_and_defaults_witness :
    rejectedByValidation (executeTool "list_campaign_leads" mockClient
      (.obj [("campaign_id", Json.num 1), ("limit", Json.num 101)])) ∧
    rejectedByValidation (executeTool "list_campaign_leads" mockClient
      (.obj [("campaign_id", Json.num 1), ("limit", Json.num 0)])) ∧
    rejectedByValidation (executeTool "list_campaign_leads" mockClient
      (.obj [("campaign_id", Json.num 1), ("offset", Json.num (-1))])) ∧
    (executeTool "list_email_accounts" mockClient (.obj [])).2 =
      [⟨.get, "/email-accounts",
        [("api_key", .str mockClient.apiKey), ("offset", Json.num 0), ("limit", Json.num 100)],
        none⟩] :=
  ⟨C3_pagination_bounds_and_defaults.1 "list_campaign_leads" (by decide) mockClient
      _ 101 rfl (Or.inr (by norm_num)),
   C3_pagination_bounds_and_defaults.1 "list_campaign_leads" (by decide) mockClient
      _ 0 rfl (Or.inl (by norm_num)),
   C3_pagination_bounds_and_defaults.2.1 "list_campaign_leads" (by decide) mockClient
      _ (-1) rfl (by norm_num),
   C3_pagination_bounds_and_defaults.2.2.1 mockClient⟩

/-! ### C6: the date-shape check and verbatim forwarding -/

theorem zodDateString_bad (s : String) (h : matchesDateRegex s = false) :
    zodDateString (.str s) = none := by
  simp [zodDateString, h]

theorem GetCampaignAnalyticsByDateSchema_bad_start (fields : List (String × Json))
    (s : String) (hf : jsGet fields "start_date" = some (.str s))
    (hs : matchesDateRegex s = false) :
    GetCampaignAnalyticsByDateSchema (.obj fields) = none := by
  cases hcid : rfield fields "campaign_id" zodPosInt with
  | none => simp [GetCampaignAnalyticsByDateSchema, hcid]
  | some cid =>
    simp [GetCampaignAnalyticsByDateSchema, hcid, rfield, hf, zodDateString_bad s hs]

theorem GetCampaignAnalyticsByDateSchema_bad_end (fields : List (String × Json))
    (s : String) (hf : jsGet fields "end_date" = some (.str s))
    (hs : matchesDateRegex s = false) :
    GetCampaignAnalyticsByDateSchema (.obj fields) = none := by
  cases hcid : rfield fields "campaign_id" zodPosInt with
  | none => simp [GetCampaignAnalyticsByDateSchema, hcid]
  | some cid =>
    cases hst : rfield fields "start_date" zodDateString with
    | none => simp [GetCampaignAnalyticsByDateSchema, hcid, hst]
    | some st =>
      simp [GetCampaignAnalyticsByDateSchema, hcid, hst, rfield, hf,
        zodDateString_bad s hs]

/-- C6: any `start_date`/`end_date` matching the four-digit, two-digit,
two-digit hyphenated shape validates and is forwarded verbatim as the query
parameters of `get_campaign_analytics_by_date`; any string failing the shape
check is rejected by validation with no transport request.  The shape check
accepts `2025-01-01` and the calendar-invalid `2025-13-40`, and rejects
`01-01-2025`. -/
theorem C6_date_range_forwarding :
    (∀ (c : SmartleadClient) (q : Rat) (s e : String), q.den = 1 → 0 < q →
        matchesDateRegex s = true → matchesDateRegex e = true →
        (executeTool "get_campaign_analytics_by_date" c
            (.obj [("campaign_id", Json.num q), ("start_date", Json.str s),
                   ("end_date", Json.str e)])).2 =
          [⟨.get, "/campaigns/" ++ toString q.num ++ "/analytics-by-date",
            [("api_key", .str c.apiKey), ("start_date", Json.str s),
             ("end_date", Json.str e)], none⟩]) ∧
    (∀ (c : SmartleadClient) (args : Json) (s : String),
        args.getField "start_date" = some (.str s) → matchesDateRegex s = false →
        rejectedByValidation (executeTool "get_campaign_analytics_by_date" c args)) ∧
    (∀ (c : SmartleadClient) (args : Json) (s : String),
        args.getField "end_date" = some (.str s) → matchesDateRegex s = false →
        rejectedByValidation (executeTool "get_campaign_analytics_by_date" c args)) ∧
    matchesDateRegex "2025-01-01" = true ∧
    matchesDateRegex "2025-13-40" = true ∧
    matchesDateRegex "01-01-2025" = false := by
  refine ⟨?_, ?_, ?_, by decide, by decide, by decide⟩
  · intro c q s e hden h0 hs he
    have hp : GetCampaignAnalyticsByDateSchema
        (.obj [("campaign_id", Json.num q), ("start_date", Json.str s),
               ("end_date", Json.str e)]) = some ⟨q, s, e⟩ := by
      simp [GetCampaignAnalyticsByDateSchema, rfield, jsGet, zodPosInt,
        zodDateString, hden, h0, hs, he]
    show (runTool GetCampaignAnalyticsByDateSchema
      (fun c p => c.get ("/campaigns/" ++ ratToString p.campaign_id ++ "/analytics-by-date")
        [("start_date", Json.str p.start_date), ("end_date", Json.str p.end_date)])
      (fun p d => textResponse
        ("Campaign " ++ ratToString p.campaign_id ++ " analytics from " ++
         p.start_date ++ " to " ++ p.end_date ++ ":\n\n" ++ stringify d))
      c _).2 = _
    rw [runTool_parse_some hp]
    simp [respond, SmartleadClient.get, send_trace, ratToString, hden]
  · intro c args s hf hs
    obtain ⟨fields, rfl, hf⟩ := getField_obj hf
    exact runTool_rejectedBy (GetCampaignAnalyticsByDateSchema_bad_start fields s hf hs)
  · intro c args s hf hs
    obtain ⟨fields, rfl, hf⟩ := getField_obj hf
    exact runTool_rejectedBy (GetCampaignAnalyticsByDateSchema_bad_end fields s hf hs)

/-- Witness for C6: the spec scenario `2025-01-01`/`2025-01-31` is forwarded
verbatim, and `01-01-2025` rejects. -/
theorem C6_date_range_forwarding_witness :
    (executeTool "get_campaign_analytics_by_date" mockClient
        (.obj [("campaign_id", Json.num 7), ("start_date", Json.str "2025-01-01"),
               ("end_date", Json.str "2025-01-31")])).2 =
      [⟨.get, "/campaigns/" ++ toString (7 : Rat).num ++ "/analytics-by-date",
        [("api_key", .str mockClient.apiKey), ("start_date", Json.str "2025-01-01"),
         ("end_date", Json.str "2025-01-31")], none⟩] ∧
    rejectedByValidation (executeTool "get_campaign_analytics_by_date" mockClient
      (.obj [("campaign_id", Json.num 7), ("start_date", Json.str "01-01-2025"),
             ("end_date", Json.str "2025-01-31")])) :=
  ⟨C6_date_range_forwarding.1 mockClient 7 "2025-01-01" "2025-01-31"
      (by decide) (by norm_num) (by decide) (by decide),
   C6_date_range_forwarding.2.1 mockClient _ "01-01-2025" rfl (by decide)⟩

/-! ### C5: positive-integer identifiers are validated before any request

One rejection lemma per schema and identifier member (the identifier members
come first in each schema, matching the source order; `lead_id` members sit
behind `campaign_id` and need one case split on its outcome). -/

theorem GetCampaignSchema_bad_id (fields : List (String × Json)) (q : Rat)
    (hf : jsGet fields "campaign_id" = some (.num q)) (hq : q.den ≠ 1 ∨ q ≤ 0) :
    GetCampaignSchema (.obj fields) = none := by
  simp [GetCampaignSchema, rfield, hf, zodPosInt_bad q hq]

theorem UpdateCampaignScheduleSchema_bad_id (fields : List (String × Json)) (q : Rat)
    (hf : jsGet fields "campaign_id" = some (.num q)) (hq : q.den ≠ 1 ∨ q ≤ 0) :
    UpdateCampaignScheduleSchema (.obj fields) = none := by
  simp [UpdateCampaignScheduleSchema, rfield, hf, zodPosInt_bad q hq]

theorem UpdateCampaignSettingsSchema_bad_id (fields : List (String × Json)) (q : Rat)
    (hf : jsGet fields "campaign_id" = some (.num q)) (hq : q.den ≠ 1 ∨ q ≤ 0) :
    UpdateCampaignSettingsSchema (.obj fields) = none := by
  simp [UpdateCampaignSettingsSchema, rfield, hf, zodPosInt_bad q hq]

theorem UpdateCampaignStatusSchema_bad_id (fields : List (String × Json)) (q : Rat)
    (hf : jsGet fields "campaign_id" = some (.num q)) (hq : q.den ≠ 1 ∨ q ≤ 0) :
    UpdateCampaignStatusSchema (.obj fields) = none := by
  simp [UpdateCampaignStatusSchema, rfield, hf, zodPosInt_bad q hq]

theorem ListCampaignLeadsSchema_bad_id (fields : List (String × Json)) (q : Rat)
    (hf : jsGet fields "campaign_id" = some (.num q)) (hq : q.den ≠ 1 ∨ q ≤ 0) :
    ListCampaignLeadsSchema (.obj fields) = none := by
  simp [ListCampaignLeadsSchema, rfield, hf, zodPosInt_bad q hq]

theorem AddLeadsSchema_bad_id (fields : List (String × Json)) (q : Rat)
    (hf : jsGet fields "campaign_id" = some (.num q)) (hq : q.den ≠ 1 ∨ q ≤ 0) :
    AddLeadsSchema (.obj fields) = none := by
  simp [AddLeadsSchema, rfield, hf, zodPosInt_bad q hq]

theorem LeadActionSchema_bad_id (fields : List (String × Json)) (q : Rat)
    (hf : jsGet fields "campaign_id" = some (.num q)) (hq : q.den ≠ 1 ∨ q ≤ 0) :
    LeadActionSchema (.obj fields) = none := by
  simp [LeadActionSchema, rfield, hf, zodPosInt_bad q hq]

theorem LeadActionSchema_bad_lead (fields : List (String × Json)) (q : Rat)
    (hf : jsGet fields "lead_id" = some (.num q)) (hq : q.den ≠ 1 ∨ q ≤ 0) :
    LeadActionSchema (.obj fields) = none := by
  cases hcid : rfield fields "campaign_id" zodPosInt with
  | none => simp [LeadActionSchema, hcid]
  | some cid => simp [LeadActionSchema, hcid, rfield, hf, zodPosInt_bad q hq]

theorem ResumeLeadSchema_bad_id (fields : List (String × Json)) (q : Rat)
    (hf : jsGet fields "campaign_id" = some (.num q)) (hq : q.den ≠ 1 ∨ q ≤ 0) :
    ResumeLeadSchema (.obj fields) = none := by
  simp [ResumeLeadSchema, rfield, hf, zodPosInt_bad q hq]

theorem ResumeLeadSchema_bad_lead (fields : List (String × Json)) (q : Rat)
    (hf : jsGet fields "lead_id" = some (.num q)) (hq : q.den ≠ 1 ∨ q ≤ 0) :
    ResumeLeadSchema (.obj fields) = none := by
  cases hcid : rfield fields "campaign_id" zodPosInt with
  | none => simp [ResumeLeadSchema, hcid]
  | some cid => simp [ResumeLeadSchema, hcid, rfield, hf, zodPosInt_bad q hq]

theorem GetLeadCampaignsSchema_bad_lead (fields : List (String × Json)) (q : Rat)
    (hf : jsGet fields "lead_id" = some (.num q)) (hq : q.den ≠ 1 ∨ q ≤ 0) :
    GetLeadCampaignsSchema (.obj fields) = none := by
  simp [GetLeadCampaignsSchema, rfield, hf, zodPosInt_bad q hq]

theorem GetEmailAccountSchema_bad_id (fields : List (String × Json)) (q : Rat)
    (hf : jsGet fields "account_id" = some (.num q)) (hq : q.den ≠ 1 ∨ q ≤ 0) :
    GetEmailAccountSchema (.obj fields) = none := by
  simp [GetEmailAccountSchema, rfield, hf, zodPosInt_bad q hq]

theorem UpdateWarmupSettingsSchema_bad_id (fields : List (String × Json)) (q : Rat)
    (hf : jsGet fields "email_account_id" = some (.num q)) (hq : q.den ≠ 1 ∨ q ≤ 0) :
    UpdateWarmupSettingsSchema (.obj fields) = none := by
  simp [UpdateWarmupSettingsSchema, rfield, hf, zodPosInt_bad q hq]

set_option maxHeartbeats 1000000 in
theorem UpdateEmailAccountSchema_bad_id (fields : List (String × Json)) (q : Rat)
    (hf : jsGet fields "email_account_id" = some (.num q)) (hq : q.den ≠ 1 ∨ q ≤ 0) :
    UpdateEmailAccountSchema (.obj fields) = none := by
  simp [UpdateEmailAccountSchema, rfield, hf, zodPosInt_bad q hq]

theorem GetCampaignStatisticsSchema_bad_id (fields : List (String × Json)) (q : Rat)
    (hf : jsGet fields "campaign_id" = some (.num q)) (hq : q.den ≠ 1 ∨ q ≤ 0) :
    GetCampaignStatisticsSchema (.obj fields) = none := by
  simp [GetCampaignStatisticsSchema, rfield, hf, zodPosInt_bad q hq]

theorem GetCampaignAnalyticsByDateSchema_bad_id (fields : List (String × Json)) (q : Rat)
    (hf : jsGet fields "campaign_id" = some (.num q)) (hq : q.den ≠ 1 ∨ q ≤ 0) :
    GetCampaignAnalyticsByDateSchema (.obj fields) = none := by
  simp [GetCampaignAnalyticsByDateSchema, rfield, hf, zodPosInt_bad q hq]

theorem ManageCampaignEmailAccountsSchema_bad_id (fields : List (String × Json)) (q : Rat)
    (hf : jsGet fields "campaign_id" = some (.num q)) (hq : q.den ≠ 1 ∨ q ≤ 0) :
    ManageCampaignEmailAccountsSchema (.obj fields) = none := by
  simp [ManageCampaignEmailAccountsSchema, rfield, hf, zodPosInt_bad q hq]

/-- Every registered operation paired with each positive-integer identifier
member its schema declares. -/
def idParamPairs : List (String × String) :=
  [("get_campaign", "campaign_id"),
   ("update_campaign_schedule", "campaign_id"),
   ("update_campaign_settings", "campaign_id"),
   ("update_campaign_status", "campaign_id"),
   ("delete_campaign", "campaign_id"),
   ("list_campaign_email_accounts", "campaign_id"),
   ("add_campaign_email_accounts", "campaign_id"),
   ("remove_campaign_email_accounts", "campaign_id"),
   ("list_campaign_leads", "campaign_id"),
   ("add_leads_to_campaign", "campaign_id"),
   ("pause_lead", "campaign_id"), ("pause_lead", "lead_id"),
   ("resume_lead", "campaign_id"), ("resume_lead", "lead_id"),
   ("delete_lead_from_campaign", "campaign_id"),
   ("delete_lead_from_campaign", "lead_id"),
   ("unsubscribe_lead_from_campaign", "campaign_id"),
   ("unsubscribe_lead_from_campaign", "lead_id"),
   ("unsubscribe_lead_globally", "lead_id"),
   ("get_lead_campaigns", "lead_id"),
   ("get_email_account", "account_id"),
   ("get_warmup_stats", "account_id"),
   ("update_warmup_settings", "email_account_id"),
   ("update_email_account", "email_account_id"),
   ("get_campaign_statistics", "campaign_id"),
   ("get_campaign_analytics", "campaign_id"),
   ("get_campaign_analytics_by_date", "campaign_id")]

/-- C5: for every operation/identifier pair, an argument object whose
identifier member is 0, negative, or a non-integer number fails validation
and the transport is never invoked (the request trace is empty). -/
theorem C5_positive_integer_ids :
    ∀ pr ∈ idParamPairs, ∀ (c : SmartleadClient) (args : Json) (q : Rat),
      args.getField pr.2 = some (.num q) → (q.den ≠ 1 ∨ q ≤ 0) →
      rejectedByValidation (executeTool pr.1 c args) := by
  intro pr hpr c args q hf hq
  simp only [idParamPairs, List.mem_cons, List.not_mem_nil, or_false] at hpr
  rcases hpr with rfl | rfl | rfl | rfl | rfl | rfl | rfl | rfl | rfl | rfl | rfl | rfl |
    rfl | rfl | rfl | rfl | rfl | rfl | rfl | rfl | rfl | rfl | rfl | rfl | rfl | rfl | rfl <;>
    obtain ⟨fields, rfl, hf⟩ := getField_obj hf
  · exact runTool_rejectedBy (GetCampaignSchema_bad_id fields q hf hq)
  · exact runTool_rejectedBy (UpdateCampaignScheduleSchema_bad_id fields q hf hq)
  · exact runTool_rejectedBy (UpdateCampaignSettingsSchema_bad_id fields q hf hq)
  · exact runTool_rejectedBy (UpdateCampaignStatusSchema_bad_id fields q hf hq)
  · exact runTool_rejectedBy (GetCampaignSchema_bad_id fields q hf hq)
  · exact runTool_rejectedBy (GetCampaignSchema_bad_id fields q hf hq)
  · exact runTool_rejectedBy (ManageCampaignEmailAccountsSchema_bad_id fields q hf hq)
  · exact runTool_rejectedBy (ManageCampaignEmailAccountsSchema_bad_id fields q hf hq)
  · exact runTool_rejectedBy (ListCampaignLeadsSchema_bad_id fields q hf hq)
  · exact runTool_rejectedBy (AddLeadsSchema_bad_id fields q hf hq)
  · exact runTool_rejectedBy (LeadActionSchema_bad_id fields q hf hq)
  · exact runTool_rejectedBy (LeadActionSchema_bad_lead fields q hf hq)
  · exact runTool_rejectedBy (ResumeLeadSchema_bad_id fields q hf hq)
  · exact runTool_rejectedBy (ResumeLeadSchema_bad_lead fields q hf hq)
  · exact runTool_rejectedBy (LeadActionSchema_bad_id fields q hf hq)
  · exact runTool_rejectedBy (LeadActionSchema_bad_lead fields q hf hq)
  · exact runTool_rejectedBy (LeadActionSchema_bad_id fields q hf hq)
  · exact runTool_rejectedBy (LeadActionSchema_bad_lead fields q hf hq)
  · exact runTool_rejectedBy (GetLeadCampaignsSchema_bad_lead fields q hf hq)
  · exact runTool_rejectedBy (GetLeadCampaignsSchema_bad_lead fields q hf hq)
  · exact runTool_rejectedBy (GetEmailAccountSchema_bad_id fields q hf hq)
  · exact runTool_rejectedBy (GetEmailAccountSchema_bad_id fields q hf hq)
  · exact runTool_rejectedBy (UpdateWarmupSettingsSchema_bad_id fields q hf hq)
  · exact runTool_rejectedBy (UpdateEmailAccountSchema_bad_id fields q hf hq)
  · exact runTool_rejectedBy (GetCampaignStatisticsSchema_bad_id fields q hf hq)
  · exact runTool_rejectedBy (GetCampaignSchema_bad_id fields q hf hq)
  · exact runTool_rejectedBy (GetCampaignAnalyticsByDateSchema_bad_id fields q hf hq)

/-- Witness for C5: `get_campaign` with `campaign_id = 0`, a negative id for
`pause_lead`, and a non-integer id for `get_email_account` all reject. -/
theorem C5_positive_integer_ids_witness :
    (("get_campaign", "campaign_id") ∈ idParamPairs ∧
      rejectedByValidation (executeTool "get_campaign" mockClient
        (.obj [("campaign_id", Json.num 0)]))) ∧
    (("pause_lead", "lead_id") ∈ idParamPairs ∧
      rejectedByValidation (executeTool "pause_lead" mockClient
        (.obj [("campaign_id", Json.num 1), ("lead_id", Json.num (-5))]))) ∧
    (("get_email_account", "account_id") ∈ idParamPairs ∧
      rejectedByValidation (executeTool "get_email_account" mockClient
        (.obj [("account_id", Json.num (3 / 2))]))) :=
  ⟨⟨by decide, C5_positive_integer_ids ("get_campaign", "campaign_id") (by decide)
      mockClient _ 0 rfl (Or.inr le_rfl)⟩,
   ⟨by decide, C5_positive_integer_ids ("pause_lead", "lead_id") (by decide)
      mockClient _ (-5) rfl (Or.inr (by norm_num))⟩,
   ⟨by decide, C5_positive_integer_ids ("get_email_account", "account_id") (by decide)
      mockClient _ (3 / 2) rfl (Or.inl (by norm_num))⟩⟩

/-! ### C4: bulk lead upload bounds and forwarding -/

/-- A lead entry consisting of exactly the three required members, with
non-empty names and an email passing the zod check. -/
def simpleLead : Json → Bool
  | .obj [("first_name", .str a), ("last_name", .str b), ("email", .str em)] =>
    decide (1 ≤ a.length) && decide (1 ≤ b.length) && zodEmailCheck em
  | _ => false

/-- The parsed form of a `simpleLead` entry: every optional member absent. -/
def simpleLeadRecord (a b em : String) : LeadRecord :=
  ⟨a, b, em, none, none, none, none, none, none, none⟩

theorem parseLead_simple (e : Json) (h : simpleLead e = true) :
    ∃ a b em,
      e = .obj [("first_name", .str a), ("last_name", .str b), ("email", .str em)] ∧
      parseLeadRecord e = some (simpleLeadRecord a b em) ∧
      leadToJson (simpleLeadRecord a b em) = e := by
  unfold simpleLead at h
  split at h
  case h_2 => exact absurd h (by simp)
  case h_1 a b em =>
    refine ⟨a, b, em, rfl, ?_, ?_⟩
    · simp only [Bool.and_eq_true, decide_eq_true_eq] at h
      obtain ⟨⟨ha, hb⟩, hem⟩ := h
      simp [parseLeadRecord, rfield, ofield, jsGet, zodNonemptyString, zodEmail,
        ha, hb, hem, simpleLeadRecord]
    · simp [leadToJson, simpleLeadRecord, optField]

theorem parseList_simple (entries : List Json)
    (h : ∀ e ∈ entries, simpleLead e = true) :
    ∃ leads, parseList parseLeadRecord entries = some leads ∧
      leads.map leadToJson = entries := by
  induction entries with
  | nil => exact ⟨[], rfl, rfl⟩
  | cons e rest ih =>
    obtain ⟨a, b, em, he, hp, hj⟩ := parseLead_simple e (h e (List.mem_cons_self e rest))
    obtain ⟨leads, hl, hm⟩ := ih (fun x hx => h x (List.mem_cons_of_mem e hx))
    refine ⟨simpleLeadRecord a b em :: leads, ?_, ?_⟩
    · simp [parseList, hp, hl]
    · simp [hm, hj]

theorem AddLeadsSchema_too_long (fields : List (String × Json)) (l : List Json)
    (hf : jsGet fields "lead_list" = some (.arr l)) (hlen : 100 < l.length) :
    AddLeadsSchema (.obj fields) = none := by
  cases hcid : rfield fields "campaign_id" zodPosInt with
  | none => simp [AddLeadsSchema, hcid]
  | some cid =>
    simp [AddLeadsSchema, hcid, rfield, hf, show ¬ l.length ≤ 100 by omega]

/-- C4: a `lead_list` of more than 100 entries is rejected with no transport
request; a list of at most 100 entries, each a valid lead record, is accepted
and forwarded to the transport unmodified (in particular a list of exactly
100 entries, and the empty list, are accepted). -/
theorem C4_bulk_lead_upload :
    (∀ (c : SmartleadClient) (args : Json) (l : List Json),
        args.getField "lead_list" = some (.arr l) → 100 < l.length →
        rejectedByValidation (executeTool "add_leads_to_campaign" c args)) ∧
    (∀ (c : SmartleadClient) (q : Rat) (entries : List Json),
        q.den = 1 → 0 < q → entries.length ≤ 100 →
        (∀ e ∈ entries, simpleLead e = true) →
        (executeTool "add_leads_to_campaign" c
            (.obj [("campaign_id", Json.num q), ("lead_list", Json.arr entries)])).2 =
          [⟨.post, "/campaigns/" ++ toString q.num ++ "/leads",
            [("api_key", .str c.apiKey)],
            some (.obj [("lead_list", Json.arr entries)])⟩]) := by
  constructor
  · intro c args l hf hlen
    obtain ⟨fields, rfl, hf⟩ := getField_obj hf
    exact runTool_rejectedBy (AddLeadsSchema_too_long fields l hf hlen)
  · intro c q entries hden h0 hlen hall
    obtain ⟨leads, hl, hm⟩ := parseList_simple entries hall
    have hp : AddLeadsSchema
        (.obj [("campaign_id", Json.num q), ("lead_list", Json.arr entries)]) =
        some ⟨q, leads, none⟩ := by
      simp [AddLeadsSchema, rfield, ofield, jsGet, zodPosInt, hden, h0, hlen, hl]
    show (runTool AddLeadsSchema
      (fun c p => c.post ("/campaigns/" ++ ratToString p.campaign_id ++ "/leads")
        (some (addLeadsBody p)) [])
      renderJson c _).2 = _
    rw [runTool_parse_some hp]
    simp [respond, SmartleadClient.post, send_trace, ratToString, hden,
      addLeadsBody, hm]

/-- Witness for C4: 101 identical valid entries reject; 100 identical valid
entries are accepted and forwarded unmodified; the empty list is accepted. -/
theorem C4_bulk_lead_upload_witness :
    rejectedByValidation (executeTool "add_leads_to_campaign" mockClient
      (.obj [("campaign_id", Json.num 1),
             ("lead_list", Json.arr (List.replicate 101
               (.obj [("first_name", .str "Ada"), ("last_name", .str "Lovelace"),
                      ("email", .str "ada@example.com")])))])) ∧
    (executeTool "add_leads_to_campaign" mockClient
        (.obj [("campaign_id", Json.num 1),
               ("lead_list", Json.arr (List.replicate 100
                 (.obj [("first_name", .str "Ada"), ("last_name", .str "Lovelace"),
                        ("email", .str "ada@example.com")])))])).2 =
      [⟨.post, "/campaigns/" ++ toString (1 : Rat).num ++ "/leads",
        [("api_key", .str mockClient.apiKey)],
        some (.obj [("lead_list", Json.arr (List.replicate 100
          (.obj [("first_name", .str "Ada"), ("last_name", .str "Lovelace"),
                 ("email", .str "ada@example.com")])))])⟩] ∧
    (executeTool "add_leads_to_campaign" mockClient
        (.obj [("campaign_id", Json.num 1), ("lead_list", Json.arr [])])).2 =
      [⟨.post, "/campaigns/" ++ toString (1 : Rat).num ++ "/leads",
        [("api_key", .str mockClient.apiKey)],
        some (.obj [("lead_list", Json.arr [])])⟩] :=
  ⟨C4_bulk_lead_upload.1 mockClient _ _ rfl (by simp),
   C4_bulk_lead_upload.2 mockClient 1 _ (by decide) (by norm_num) (by simp)
     (fun e he => by
       rw [List.eq_of_mem_replicate he]; decide),
   C4_bulk_lead_upload.2 mockClient 1 [] (by decide) (by norm_num) (by simp)
     (fun e he => absurd he (List.not_mem_nil e))⟩

/-! ### C9: payload and query shape -/

/-- A valid `create_email_account` input carrying exactly the ten required
members. -/
def validCreateAccountArgs : Json :=
  .obj [("from_name", Json.str "N"), ("from_email", Json.str "a@b.com"),
        ("username", Json.str "u"), ("password", Json.str "p"),
        ("smtp_host", Json.str "h"), ("smtp_port", Json.num 587),
        ("imap_host", Json.str "h2"), ("imap_port", Json.num 993),
        ("message_per_day", Json.num 50), ("type", Json.str "SMTP")]

/-- The same input with a passthrough `id` member added by the caller. -/
def idOverrideCreateArgs : Json :=
  .obj [("from_name", Json.str "N"), ("from_email", Json.str "a@b.com"),
        ("username", Json.str "u"), ("password", Json.str "p"),
        ("smtp_host", Json.str "h"), ("smtp_port", Json.num 587),
        ("imap_host", Json.str "h2"), ("imap_port", Json.num 993),
        ("message_per_day", Json.num 50), ("type", Json.str "SMTP"),
        ("id", Json.num 99)]

/-- The body `create_email_account` posts for `idOverrideCreateArgs`: the
spread `{id: null, ...params}` assigns `id: null` first, but the passthrough
`id` kept in the parsed object is assigned after it and wins. -/
def idOverrideCreateBody : Json :=
  .obj (("id", Json.null) ::
    [("from_name", Json.str "N"), ("from_email", Json.str "a@b.com"),
     ("username", Json.str "u"), ("password", Json.str "p"),
     ("smtp_host", Json.str "h"), ("smtp_port", Json.num 587),
     ("imap_host", Json.str "h2"), ("imap_port", Json.num 993),
     ("message_per_day", Json.num 50), ("type", Json.str "SMTP")] ++
    [("id", Json.num 99)])

/-- C9 counterexample: three concrete violations of the claim.
`create_campaign` with the present, validated optional `client_id = 0` — the
truthiness-guarded spread drops it, so the posted body has no `client_id`
member even though the optional field was present.  `update_email_account`
with the unrecognized member `extra_setting` — its passthrough schema keeps
it, so the posted body carries a field the schema does not declare.  And
`create_email_account` with a caller-supplied `id` — the passthrough `id`
overrides the explicit `id: null` spread. -/
theorem C9_counterexample :
    CreateCampaignSchema (.obj [("name", Json.str "X"), ("client_id", Json.num 0)]) =
      some ⟨"X", some 0⟩ ∧
    (executeTool "create_campaign" createMockedClient
        (.obj [("name", Json.str "X"), ("client_id", Json.num 0)])).2 =
      [⟨.post, "/campaigns/create", [("api_key", .str "test-key")],
        some (.obj [("name", Json.str "X")])⟩] ∧
    Json.getField (.obj [("name", Json.str "X")]) "client_id" = none ∧
    (executeTool "update_email_account" createMockedClient
        (.obj [("email_account_id", Json.num 1), ("extra_setting", Json.bool true)])).2 =
      [⟨.post, "/email-accounts/1", [("api_key", .str "test-key")],
        some (.obj [("extra_setting", Json.bool true)])⟩] ∧
    "extra_setting" ∉ UpdateEmailAccountSchema_keys ∧
    (executeTool "create_email_account" createMockedClient idOverrideCreateArgs).2 =
      [⟨.post, "/email-accounts/save", [("api_key", .str "test-key")],
        some idOverrideCreateBody⟩] ∧
    idOverrideCreateBody.getField "id" = some (Json.num 99) ∧
    Json.num 99 ≠ Json.null :=
  ⟨rfl, rfl, rfl, rfl, by decide, rfl, rfl, fun h => Json.noConfusion h⟩

/-- The member names of a request body (empty for a missing or non-object
body). -/
def bodyKeys : Option Json → List String
  | some (.obj fs) => fs.map Prod.fst
  | _ => []

/-- The member names an operation may send in its request body: its schema's
declared names, plus the explicit `id` that `create_email_account` adds. -/
def allowedBodyKeys : String → List String
  | "create_campaign" => CreateCampaignSchema_keys
  | "update_campaign_schedule" => UpdateCampaignScheduleSchema_keys
  | "update_campaign_settings" => UpdateCampaignSettingsSchema_keys
  | "update_campaign_status" => UpdateCampaignStatusSchema_keys
  | "add_campaign_email_accounts" => ManageCampaignEmailAccountsSchema_keys
  | "remove_campaign_email_accounts" => ManageCampaignEmailAccountsSchema_keys
  | "add_leads_to_campaign" => AddLeadsSchema_keys
  | "resume_lead" => ResumeLeadSchema_keys
  | "update_warmup_settings" => UpdateWarmupSettingsSchema_keys
  | "create_email_account" => "id" :: CreateEmailAccountSchema_keys
  | "update_email_account" => UpdateEmailAccountSchema_keys
  | _ => []

/-- The member names an operation may send as caller query parameters: its
schema's declared names. -/
def allowedQueryKeys : String → List String
  | "list_campaign_leads" => ListCampaignLeadsSchema_keys
  | "list_email_accounts" => ListEmailAccountsSchema_keys
  | "get_lead_by_email" => GetLeadByEmailSchema_keys
  | "get_campaign_statistics" => GetCampaignStatisticsSchema_keys
  | "get_campaign_analytics_by_date" => GetCampaignAnalyticsByDateSchema_keys
  | _ => []

theorem subset_keys_append {a b : List (String × Json)} {s : List String}
    (ha : a.map Prod.fst ⊆ s) (hb : b.map Prod.fst ⊆ s) :
    (a ++ b).map Prod.fst ⊆ s := by
  simp only [List.map_append, List.append_subset]
  exact ⟨ha, hb⟩

theorem subset_keys_cons {k : String} {v : Json} {rest : List (String × Json)}
    {s : List String} (hk : k ∈ s) (hr : rest.map Prod.fst ⊆ s) :
    ((k, v) :: rest).map Prod.fst ⊆ s := by
  simp only [List.map_cons, List.cons_subset]
  exact ⟨hk, hr⟩

theorem optField_keys_sub {α : Type} {k : String} {f : α → Json} {v : Option α}
    {s : List String} (h : k ∈ s) : (optField k f v).map Prod.fst ⊆ s := by
  cases v <;> simp [optField, h]

theorem runTool_mem_trace {α : Type} {parse : Json → Option α} {call render c args req}
    (h : req ∈ (runTool parse call render c args).2) :
    ∃ p, parse args = some p ∧ req ∈ (call c p).2 := by
  cases hp : parse args with
  | none => rw [runTool_parse_none hp] at h; exact absurd h (List.not_mem_nil req)
  | some p => rw [runTool_parse_some hp] at h; exact ⟨p, rfl, h⟩

theorem createCampaignBody_keys (p : CreateCampaignParams) :
    bodyKeys (some (createCampaignBody p)) ⊆ CreateCampaignSchema_keys := by
  cases hcl : p.client_id with
  | none => simp [createCampaignBody, bodyKeys, CreateCampaignSchema_keys, hcl]
  | some q =>
    by_cases hq : q == 0 <;>
      simp [createCampaignBody, bodyKeys, CreateCampaignSchema_keys, hcl, hq]

theorem scheduleBody_keys (p : UpdateCampaignScheduleParams) :
    bodyKeys (some (scheduleBody p)) ⊆ UpdateCampaignScheduleSchema_keys := by
  show ((optField "timezone" Json.str p.timezone ++
    optField "days_of_the_week" (fun l => Json.arr (l.map Json.num)) p.days_of_the_week ++
    optField "start_hour" Json.str p.start_hour ++
    optField "end_hour" Json.str p.end_hour ++
    optField "min_time_btw_emails" Json.num p.min_time_btw_emails ++
    optField "max_new_leads_per_day" Json.num p.max_new_leads_per_day ++
    optField "schedule_start_time" Json.str p.schedule_start_time)).map Prod.fst ⊆ _
  refine subset_keys_append (subset_keys_append (subset_keys_append (subset_keys_append
    (subset_keys_append (subset_keys_append ?_ ?_) ?_) ?_) ?_) ?_) ?_ <;>
    exact optField_keys_sub (by decide)

theorem settingsBody_keys (p : UpdateCampaignSettingsParams) :
    bodyKeys (some (settingsBody p)) ⊆ UpdateCampaignSettingsSchema_keys := by
  show ((optField "track_settings" (fun l => Json.arr (l.map Json.str)) p.track_settings ++
    optField "stop_lead_settings" Json.str p.stop_lead_settings ++
    optField "unsubscribe_text" Json.str p.unsubscribe_text ++
    optField "send_as_plain_text" Json.bool p.send_as_plain_text ++
    optField "follow_up_percentage" Json.num p.follow_up_percentage ++
    optField "client_id" Json.num p.client_id ++
    optField "enable_ai_esp_matching" Json.bool p.enable_ai_esp_matching)).map Prod.fst ⊆ _
  refine subset_keys_append (subset_keys_append (subset_keys_append (subset_keys_append
    (subset_keys_append (subset_keys_append ?_ ?_) ?_) ?_) ?_) ?_) ?_ <;>
    exact optField_keys_sub (by decide)

theorem addLeadsBody_keys (p : AddLeadsParams) :
    bodyKeys (some (addLeadsBody p)) ⊆ AddLeadsSchema_keys := by
  cases hs : p.settings <;>
    simp [addLeadsBody, bodyKeys, AddLeadsSchema_keys, hs]

theorem resumeLeadBody_keys (p : ResumeLeadParams) :
    bodyKeys (some (resumeLeadBody p)) ⊆ ResumeLeadSchema_keys := by
  cases hd : p.resume_lead_with_delay_days <;>
    simp [resumeLeadBody, bodyKeys, ResumeLeadSchema_keys, hd]

theorem warmupBody_keys (p : UpdateWarmupSettingsParams) :
    bodyKeys (some (warmupBody p)) ⊆ UpdateWarmupSettingsSchema_keys := by
  show ((("warmup_enabled", Json.bool p.warmup_enabled) ::
    (optField "total_warmup_per_day" Json.num p.total_warmup_per_day ++
     optField "daily_rampup" Json.num p.daily_rampup ++
     optField "reply_rate_percentage" Json.num p.reply_rate_percentage ++
     optField "warmup_key_id" Json.str p.warmup_key_id))).map Prod.fst ⊆ _
  refine subset_keys_cons (by decide)
    (subset_keys_append (subset_keys_append (subset_keys_append ?_ ?_) ?_) ?_) <;>
    exact optField_keys_sub (by decide)

/-- The member names of a JS object value (empty for non-objects). -/
def objKeys : Json → List String
  | .obj fields => fields.map Prod.fst
  | _ => []

theorem createEmailAccountBody_keys (p : CreateEmailAccountParams) (s : List String)
    (hx : p.extra.map Prod.fst ⊆ s) :
    bodyKeys (some (.obj (("id", Json.null) :: createEmailAccountToJson p))) ⊆
      ("id" :: CreateEmailAccountSchema_keys) ++ s := by
  show ((("id", Json.null) :: createEmailAccountToJson p)).map Prod.fst ⊆ _
  refine subset_keys_cons (by simp) ?_
  show (([("from_name", Json.str p.from_name),
    ("from_email", Json.str p.from_email),
    ("username", Json.str p.username),
    ("password", Json.str p.password),
    ("smtp_host", Json.str p.smtp_host),
    ("smtp_port", Json.num p.smtp_port),
    ("imap_host", Json.str p.imap_host),
    ("imap_port", Json.num p.imap_port),
    ("message_per_day", Json.num p.message_per_day),
    ("type", Json.str p.connector)] ++
    optField "client_id" Json.num p.client_id ++ p.extra)).map Prod.fst ⊆ _
  refine subset_keys_append (subset_keys_append ?_ (optField_keys_sub ?_)) ?_
  · refine List.Subset.trans ?_ (List.subset_append_left _ s)
    simp only [List.map_cons, List.map_nil]
    decide
  · exact List.mem_append_left s (by decide)
  · exact hx.trans (List.subset_append_right _ s)

theorem updateEmailAccountBody_keys (p : UpdateEmailAccountParams) (s : List String)
    (hx : p.extra.map Prod.fst ⊆ s) :
    bodyKeys (some (updateEmailAccountBody p)) ⊆ UpdateEmailAccountSchema_keys ++ s := by
  show ((optField "from_name" Json.str p.from_name ++
    optField "from_email" Json.str p.from_email ++
    optField "username" Json.str p.username ++
    optField "password" Json.str p.password ++
    optField "smtp_host" Json.str p.smtp_host ++
    optField "smtp_port" Json.num p.smtp_port ++
    optField "imap_host" Json.str p.imap_host ++
    optField "imap_port" Json.num p.imap_port ++
    optField "message_per_day" Json.num p.message_per_day ++
    optField "type" Json.str p.connector ++
    optField "client_id" Json.num p.client_id ++
    p.extra)).map Prod.fst ⊆ _
  refine subset_keys_append ?_ (hx.trans (List.subset_append_right _ s))
  refine subset_keys_append (subset_keys_append (subset_keys_append (subset_keys_append
    (subset_keys_append (subset_keys_append (subset_keys_append (subset_keys_append
      (subset_keys_append (subset_keys_append ?_ ?_) ?_) ?_) ?_) ?_) ?_) ?_) ?_) ?_) ?_ <;>
    exact optField_keys_sub (List.mem_append_left s (by decide))

theorem statisticsQuery_keys (p : GetCampaignStatisticsParams) (v : Json) :
    ((("api_key", v) :: statisticsQuery p)).map Prod.fst ⊆
      "api_key" :: GetCampaignStatisticsSchema_keys := by
  refine subset_keys_cons (by decide) ?_
  show (([("offset", Json.num p.offset), ("limit", Json.num p.limit)] ++
    optField "email_sequence_number" Json.num p.email_sequence_number ++
    optField "email_status" Json.str p.email_status)).map Prod.fst ⊆ _
  refine subset_keys_append (subset_keys_append ?_ ?_) ?_
  · simp only [List.map_cons, List.map_nil]
    decide
  · exact optField_keys_sub (by decide)
  · exact optField_keys_sub (by decide)

theorem createEmailAccountToJson_no_id (p : CreateEmailAccountParams)
    (hx : "id" ∉ p.extra.map Prod.fst) :
    "id" ∉ (createEmailAccountToJson p).map Prod.fst := by
  cases hcl : p.client_id <;>
    simp_all [createEmailAccountToJson, optField, hcl]

theorem CreateEmailAccountSchema_extra {args : Json} {p : CreateEmailAccountParams}
    (h : CreateEmailAccountSchema args = some p) :
    ∃ fields, args = .obj fields ∧
      p.extra = fields.filter (fun f => !(CreateEmailAccountSchema_keys.contains f.1)) := by
  cases args with
  | obj fields =>
    refine ⟨fields, rfl, ?_⟩
    simp only [CreateEmailAccountSchema, Option.bind_eq_bind', Option.bind_eq_some,
      Option.pure_def, Option.some.injEq] at h
    obtain ⟨a1, -, a2, -, a3, -, a4, -, a5, -, a6, -, a7, -, a8, -, a9, -, a10, -,
      a11, -, hp⟩ := h
    rw [← hp]
  | null => exact absurd h (by simp [CreateEmailAccountSchema])
  | bool b => exact absurd h (by simp [CreateEmailAccountSchema])
  | num n => exact absurd h (by simp [CreateEmailAccountSchema])
  | str s => exact absurd h (by simp [CreateEmailAccountSchema])
  | arr l => exact absurd h (by simp [CreateEmailAccountSchema])

theorem UpdateEmailAccountSchema_extra {args : Json} {p : UpdateEmailAccountParams}
    (h : UpdateEmailAccountSchema args = some p) :
    ∃ fields, args = .obj fields ∧
      p.extra = fields.filter (fun f => !(UpdateEmailAccountSchema_keys.contains f.1)) := by
  cases args with
  | obj fields =>
    refine ⟨fields, rfl, ?_⟩
    simp only [UpdateEmailAccountSchema, Option.bind_eq_bind', Option.bind_eq_some,
      Option.pure_def, Option.some.injEq] at h
    obtain ⟨a1, -, a2, -, a3, -, a4, -, a5, -, a6, -, a7, -, a8, -, a9, -, a10, -,
      a11, -, a12, -, hp⟩ := h
    rw [← hp]
  | null => exact absurd h (by simp [UpdateEmailAccountSchema])
  | bool b => exact absurd h (by simp [UpdateEmailAccountSchema])
  | num n => exact absurd h (by simp [UpdateEmailAccountSchema])
  | str s => exact absurd h (by simp [UpdateEmailAccountSchema])
  | arr l => exact absurd h (by simp [UpdateEmailAccountSchema])

/-- The registered operations whose schemas are in zod's default strip mode;
only `create_email_account` and `update_email_account` (passthrough schemas)
are outside this list. -/
def strictShapeTools : List String :=
  ["create_campaign", "get_campaign", "list_campaigns",
   "update_campaign_schedule", "update_campaign_settings",
   "update_campaign_status", "delete_campaign", "list_campaign_email_accounts",
   "add_campaign_email_accounts", "remove_campaign_email_accounts",
   "list_campaign_leads", "add_leads_to_campaign", "pause_lead", "resume_lead",
   "delete_lead_from_campaign", "unsubscribe_lead_from_campaign",
   "get_lead_by_email", "unsubscribe_lead_globally", "get_lead_campaigns",
   "list_email_accounts", "get_email_account", "update_warmup_settings",
   "get_warmup_stats", "reconnect_failed_accounts", "get_campaign_statistics",
   "get_campaign_analytics", "get_campaign_analytics_by_date"]

/-- C9 amended: every request a strip-mode handler sends carries body and
caller-query members drawn only from the operation's schema; the two
passthrough operations (`create_email_account`, `update_email_account`)
additionally forward the caller's unrecognized members, so their body keys
are bounded by the schema's names (plus the explicit `id` of
`create_email_account`) together with the caller-supplied input keys.
Absent optionals are omitted and present optionals forwarded, except that
`create_campaign` forwards `client_id` through a JS truthiness guard and
therefore drops a present `client_id` equal to `0`; `resume_lead` posts an
empty body when its optional delay is absent and forwards it when present;
and `create_email_account` sends `id` equal to `null` whenever the caller
did not supply an `id` member of their own (a passthrough `id` overrides the
spread, as the counterexample shows). -/
theorem C9_payload_shape :
    (∀ name ∈ strictShapeTools, ∀ (c : SmartleadClient) (args : Json),
        ∀ req ∈ (executeTool name c args).2,
          bodyKeys req.body ⊆ allowedBodyKeys name ∧
          req.params.map Prod.fst ⊆ "api_key" :: allowedQueryKeys name) ∧
    (∀ (c : SmartleadClient) (args : Json),
        ∀ req ∈ (executeTool "create_email_account" c args).2,
          bodyKeys req.body ⊆ allowedBodyKeys "create_email_account" ++ objKeys args ∧
          req.params.map Prod.fst ⊆ ["api_key"]) ∧
    (∀ (c : SmartleadClient) (args : Json),
        ∀ req ∈ (executeTool "update_email_account" c args).2,
          bodyKeys req.body ⊆ allowedBodyKeys "update_email_account" ++ objKeys args ∧
          req.params.map Prod.fst ⊆ ["api_key"]) ∧
    (∀ (c : SmartleadClient) (s : String), 1 ≤ s.length →
        (executeTool "create_campaign" c (.obj [("name", Json.str s)])).2 =
          [⟨.post, "/campaigns/create", [("api_key", .str c.apiKey)],
            some (.obj [("name", Json.str s)])⟩]) ∧
    (∀ (c : SmartleadClient) (s : String) (q : Rat), 1 ≤ s.length → q.den = 1 → q ≠ 0 →
        (executeTool "create_campaign" c
            (.obj [("name", Json.str s), ("client_id", Json.num q)])).2 =
          [⟨.post, "/campaigns/create", [("api_key", .str c.apiKey)],
            some (.obj [("name", Json.str s), ("client_id", Json.num q)])⟩]) ∧
    (∀ (c : SmartleadClient) (q1 q2 : Rat),
        q1.den = 1 → 0 < q1 → q2.den = 1 → 0 < q2 →
        (executeTool "resume_lead" c
            (.obj [("campaign_id", Json.num q1), ("lead_id", Json.num q2)])).2 =
          [⟨.post, "/campaigns/" ++ toString q1.num ++ "/leads/" ++ toString q2.num ++
              "/resume",
            [("api_key", .str c.apiKey)], some (.obj [])⟩]) ∧
    (∀ (c : SmartleadClient) (q1 q2 d : Rat),
        q1.den = 1 → 0 < q1 → q2.den = 1 → 0 < q2 → d.den = 1 →
        (executeTool "resume_lead" c
            (.obj [("campaign_id", Json.num q1), ("lead_id", Json.num q2),
                   ("resume_lead_with_delay_days", Json.num d)])).2 =
          [⟨.post, "/campaigns/" ++ toString q1.num ++ "/leads/" ++ toString q2.num ++
              "/resume",
            [("api_key", .str c.apiKey)],
            some (.obj [("resume_lead_with_delay_days", Json.num d)])⟩]) ∧
    (∀ (c : SmartleadClient) (args : Json), "id" ∉ objKeys args →
        ∀ req ∈ (executeTool "create_email_account" c args).2,
          ∃ b, req.body = some b ∧ b.getField "id" = some Json.null) := by
  refine ⟨?_, ?_, ?_, ?_, ?_, ?_, ?_, ?_⟩
  · intro name hname c args req hreq
    simp only [strictShapeTools, List.mem_cons, List.not_mem_nil, or_false] at hname
    rcases hname with rfl | rfl | rfl | rfl | rfl | rfl | rfl | rfl | rfl | rfl | rfl |
      rfl | rfl | rfl | rfl | rfl | rfl | rfl | rfl | rfl | rfl | rfl | rfl | rfl | rfl |
      rfl | rfl
    · -- create_campaign
      obtain ⟨p, hp, hr⟩ := runTool_mem_trace hreq
      simp only [SmartleadClient.post, send_trace, List.mem_singleton] at hr
      subst hr
      exact ⟨createCampaignBody_keys p, by dsimp only [List.map]; decide⟩
    · -- get_campaign
      obtain ⟨p, hp, hr⟩ := runTool_mem_trace hreq
      simp only [SmartleadClient.get, send_trace, List.mem_singleton] at hr
      subst hr
      exact ⟨by simp [bodyKeys], by dsimp only [List.map]; decide⟩
    · -- list_campaigns
      have hreq2 : req ∈ (listCampaigns c args).2 := hreq
      simp only [listCampaigns, respond, SmartleadClient.get, send_trace,
        List.mem_singleton] at hreq2
      subst hreq2
      exact ⟨by simp [bodyKeys], by dsimp only [List.map]; decide⟩
    · -- update_campaign_schedule
      obtain ⟨p, hp, hr⟩ := runTool_mem_trace hreq
      simp only [SmartleadClient.post, send_trace, List.mem_singleton] at hr
      subst hr
      exact ⟨scheduleBody_keys p, by dsimp only [List.map]; decide⟩
    · -- update_campaign_settings
      obtain ⟨p, hp, hr⟩ := runTool_mem_trace hreq
      simp only [SmartleadClient.post, send_trace, List.mem_singleton] at hr
      subst hr
      exact ⟨settingsBody_keys p, by dsimp only [List.map]; decide⟩
    · -- update_campaign_status
      obtain ⟨p, hp, hr⟩ := runTool_mem_trace hreq
      simp only [SmartleadClient.post, send_trace, List.mem_singleton] at hr
      subst hr
      exact ⟨by dsimp only [bodyKeys, List.map]; decide,
        by dsimp only [List.map]; decide⟩
    · -- delete_campaign
      obtain ⟨p, hp, hr⟩ := runTool_mem_trace hreq
      simp only [SmartleadClient.delete, send_trace, List.mem_singleton] at hr
      subst hr
      exact ⟨by simp [bodyKeys], by dsimp only [List.map]; decide⟩
    · -- list_campaign_email_accounts
      obtain ⟨p, hp, hr⟩ := runTool_mem_trace hreq
      simp only [SmartleadClient.get, send_trace, List.mem_singleton] at hr
      subst hr
      exact ⟨by simp [bodyKeys], by dsimp only [List.map]; decide⟩
    · -- add_campaign_email_accounts
      obtain ⟨p, hp, hr⟩ := runTool_mem_trace hreq
      simp only [SmartleadClient.post, send_trace, List.mem_singleton] at hr
      subst hr
      exact ⟨by dsimp only [bodyKeys, List.map]; decide,
        by dsimp only [List.map]; decide⟩
    · -- remove_campaign_email_accounts
      obtain ⟨p, hp, hr⟩ := runTool_mem_trace hreq
      simp only [SmartleadClient.delete, send_trace, List.mem_singleton] at hr
      subst hr
      exact ⟨by dsimp only [bodyKeys, List.map]; decide,
        by dsimp only [List.map]; decide⟩
    · -- list_campaign_leads
      obtain ⟨p, hp, hr⟩ := runTool_mem_trace hreq
      simp only [SmartleadClient.get, send_trace, List.mem_singleton] at hr
      subst hr
      exact ⟨by simp [bodyKeys], by dsimp only [List.map]; decide⟩
    · -- add_leads_to_campaign
      obtain ⟨p, hp, hr⟩ := runTool_mem_trace hreq
      simp only [SmartleadClient.post, send_trace, List.mem_singleton] at hr
      subst hr
      exact ⟨addLeadsBody_keys p, by dsimp only [List.map]; decide⟩
    · -- pause_lead
      obtain ⟨p, hp, hr⟩ := runTool_mem_trace hreq
      simp only [SmartleadClient.post, send_trace, List.mem_singleton] at hr
      subst hr
      exact ⟨by simp [bodyKeys], by dsimp only [List.map]; decide⟩
    · -- resume_lead
      obtain ⟨p, hp, hr⟩ := runTool_mem_trace hreq
      simp only [SmartleadClient.post, send_trace, List.mem_singleton] at hr
      subst hr
      exact ⟨resumeLeadBody_keys p, by dsimp only [List.map]; decide⟩
    · -- delete_lead_from_campaign
      obtain ⟨p, hp, hr⟩ := runTool_mem_trace hreq
      simp only [SmartleadClient.delete, send_trace, List.mem_singleton] at hr
      subst hr
      exact ⟨by simp [bodyKeys], by dsimp only [List.map]; decide⟩
    · -- unsubscribe_lead_from_campaign
      obtain ⟨p, hp, hr⟩ := runTool_mem_trace hreq
      simp only [SmartleadClient.post, send_trace, List.mem_singleton] at hr
      subst hr
      exact ⟨by simp [bodyKeys], by dsimp only [List.map]; decide⟩
    · -- get_lead_by_email
      obtain ⟨p, hp, hr⟩ := runTool_mem_trace hreq
      simp only [SmartleadClient.get, send_trace, List.mem_singleton] at hr
      subst hr
      exact ⟨by simp [bodyKeys], by dsimp only [List.map]; decide⟩
    · -- unsubscribe_lead_globally
      obtain ⟨p, hp, hr⟩ := runTool_mem_trace hreq
      simp only [SmartleadClient.post, send_trace, List.mem_singleton] at hr
      subst hr
      exact ⟨by simp [bodyKeys], by dsimp only [List.map]; decide⟩
    · -- get_lead_campaigns
      obtain ⟨p, hp, hr⟩ := runTool_mem_trace hreq
      simp only [SmartleadClient.get, send_trace, List.mem_singleton] at hr
      subst hr
      exact ⟨by simp [bodyKeys], by dsimp only [List.map]; decide⟩
    · -- list_email_accounts
      obtain ⟨p, hp, hr⟩ := runTool_mem_trace hreq
      simp only [SmartleadClient.get, send_trace, List.mem_singleton] at hr
      subst hr
      exact ⟨by simp [bodyKeys], by dsimp only [List.map]; decide⟩
    · -- get_email_account
      obtain ⟨p, hp, hr⟩ := runTool_mem_trace hreq
      simp only [SmartleadClient.get, send_trace, List.mem_singleton] at hr
      subst hr
      exact ⟨by simp [bodyKeys], by dsimp only [List.map]; decide⟩
    · -- update_warmup_settings
      obtain ⟨p, hp, hr⟩ := runTool_mem_trace hreq
      simp only [SmartleadClient.post, send_trace, List.mem_singleton] at hr
      subst hr
      exact ⟨warmupBody_keys p, by dsimp only [List.map]; decide⟩
    · -- get_warmup_stats
      obtain ⟨p, hp, hr⟩ := runTool_mem_trace hreq
      simp only [SmartleadClient.get, send_trace, List.mem_singleton] at hr
      subst hr
      exact ⟨by simp [bodyKeys], by dsimp only [List.map]; decide⟩
    · -- reconnect_failed_accounts
      have hreq2 : req ∈ (reconnectFailedAccounts c args).2 := hreq
      simp only [reconnectFailedAccounts, respond, SmartleadClient.post, send_trace,
        List.mem_singleton] at hreq2
      subst hreq2
      exact ⟨by simp [bodyKeys], by dsimp only [List.map]; decide⟩
    · -- get_campaign_statistics
      obtain ⟨p, hp, hr⟩ := runTool_mem_trace hreq
      simp only [SmartleadClient.get, send_trace, List.mem_singleton] at hr
      subst hr
      exact ⟨by simp [bodyKeys], statisticsQuery_keys p (Json.str c.apiKey)⟩
    · -- get_campaign_analytics
      obtain ⟨p, hp, hr⟩ := runTool_mem_trace hreq
      simp only [SmartleadClient.get, send_trace, List.mem_singleton] at hr
      subst hr
      exact ⟨by simp [bodyKeys], by dsimp only [List.map]; decide⟩
    · -- get_campaign_analytics_by_date
      obtain ⟨p, hp, hr⟩ := runTool_mem_trace hreq
      simp only [SmartleadClient.get, send_trace, List.mem_singleton] at hr
      subst hr
      exact ⟨by simp [bodyKeys], by dsimp only [List.map]; decide⟩
  · intro c args req hreq
    obtain ⟨p, hp, hr⟩ := runTool_mem_trace hreq
    simp only [SmartleadClient.post, send_trace, List.mem_singleton] at hr
    subst hr
    obtain ⟨fields, rfl, hx⟩ := CreateEmailAccountSchema_extra hp
    refine ⟨?_, by dsimp only [List.map]; decide⟩
    refine createEmailAccountBody_keys p (objKeys (.obj fields)) ?_
    rw [hx]
    show (fields.filter _).map Prod.fst ⊆ fields.map Prod.fst
    exact List.map_subset Prod.fst (fun x hx => List.mem_of_mem_filter hx)
  · intro c args req hreq
    obtain ⟨p, hp, hr⟩ := runTool_mem_trace hreq
    simp only [SmartleadClient.post, send_trace, List.mem_singleton] at hr
    subst hr
    obtain ⟨fields, rfl, hx⟩ := UpdateEmailAccountSchema_extra hp
    refine ⟨?_, by dsimp only [List.map]; decide⟩
    refine updateEmailAccountBody_keys p (objKeys (.obj fields)) ?_
    rw [hx]
    show (fields.filter _).map Prod.fst ⊆ fields.map Prod.fst
    exact List.map_subset Prod.fst (fun x hx => List.mem_of_mem_filter hx)
  · intro c s hs
    have hp : CreateCampaignSchema (.obj [("name", Json.str s)]) = some ⟨s, none⟩ := by
      simp [CreateCampaignSchema, rfield, ofield, jsGet, zodNonemptyString, hs]
    show (runTool CreateCampaignSchema
      (fun c p => c.post "/campaigns/create" (some (createCampaignBody p)) [])
      renderJson c _).2 = _
    rw [runTool_parse_some hp]
    simp [respond, SmartleadClient.post, send_trace, createCampaignBody]
  · intro c s q hs hden hq0
    have hp : CreateCampaignSchema
        (.obj [("name", Json.str s), ("client_id", Json.num q)]) = some ⟨s, some q⟩ := by
      simp [CreateCampaignSchema, rfield, ofield, jsGet, zodNonemptyString, zodInt,
        hs, hden]
    show (runTool CreateCampaignSchema
      (fun c p => c.post "/campaigns/create" (some (createCampaignBody p)) [])
      renderJson c _).2 = _
    rw [runTool_parse_some hp]
    simp [respond, SmartleadClient.post, send_trace, createCampaignBody,
      beq_eq_false_iff_ne.mpr hq0]
  · intro c q1 q2 h1 h1p h2 h2p
    have hp : ResumeLeadSchema
        (.obj [("campaign_id", Json.num q1), ("lead_id", Json.num q2)]) =
        some ⟨q1, q2, none⟩ := by
      simp [ResumeLeadSchema, rfield, ofield, jsGet, zodPosInt, h1, h1p, h2, h2p]
    show (runTool ResumeLeadSchema
      (fun c p => c.post ("/campaigns/" ++ ratToString p.campaign_id ++ "/leads/" ++
        ratToString p.lead_id ++ "/resume") (some (resumeLeadBody p)) [])
      renderJson c _).2 = _
    rw [runTool_parse_some hp]
    simp [respond, SmartleadClient.post, send_trace, resumeLeadBody, ratToString, h1, h2]
  · intro c q1 q2 d h1 h1p h2 h2p hd
    have hp : ResumeLeadSchema
        (.obj [("campaign_id", Json.num q1), ("lead_id", Json.num q2),
               ("resume_lead_with_delay_days", Json.num d)]) =
        some ⟨q1, q2, some d⟩ := by
      simp [ResumeLeadSchema, rfield, ofield, jsGet, zodPosInt, zodInt,
        h1, h1p, h2, h2p, hd]
    show (runTool ResumeLeadSchema
      (fun c p => c.post ("/campaigns/" ++ ratToString p.campaign_id ++ "/leads/" ++
        ratToString p.lead_id ++ "/resume") (some (resumeLeadBody p)) [])
      renderJson c _).2 = _
    rw [runTool_parse_some hp]
    simp [respond, SmartleadClient.post, send_trace, resumeLeadBody, ratToString, h1, h2]
  · intro c args hid req hreq
    obtain ⟨p, hp, hr⟩ := runTool_mem_trace hreq
    simp only [SmartleadClient.post, send_trace, List.mem_singleton] at hr
    subst hr
    obtain ⟨fields, rfl, hx⟩ := CreateEmailAccountSchema_extra hp
    refine ⟨_, rfl, ?_⟩
    have hxid : "id" ∉ p.extra.map Prod.fst := by
      rw [hx]
      intro hmem
      exact hid (List.map_subset Prod.fst (fun x hx => List.mem_of_mem_filter hx) hmem)
    show Json.getField (.obj (("id", Json.null) :: createEmailAccountToJson p)) "id" =
      some Json.null
    simp only [Json.getField]
    rw [jsGet, jsGet_none_of_not_mem "id" _ (createEmailAccountToJson_no_id p hxid)]
    simp

/-- Witness for C9: the key-subset property at a concrete `create_campaign`
run, plus the concrete forwarding facts for a present truthy `client_id`, an
absent optional delay, and the explicit `id: null`. -/
theorem C9_payload_shape_witness :
    ("create_campaign" ∈ strictShapeTools ∧
      ∀ req ∈ (executeTool "create_campaign" mockClient (.obj [("name", Json.str "X")])).2,
        bodyKeys req.body ⊆ allowedBodyKeys "create_campaign" ∧
        req.params.map Prod.fst ⊆ "api_key" :: allowedQueryKeys "create_campaign") ∧
    (executeTool "create_campaign" mockClient
        (.obj [("name", Json.str "X"), ("client_id", Json.num 5)])).2 =
      [⟨.post, "/campaigns/create", [("api_key", .str mockClient.apiKey)],
        some (.obj [("name", Json.str "X"), ("client_id", Json.num 5)])⟩] ∧
    (executeTool "resume_lead" mockClient
        (.obj [("campaign_id", Json.num 1), ("lead_id", Json.num 2)])).2 =
      [⟨.post, "/campaigns/" ++ toString (1 : Rat).num ++ "/leads/" ++
          toString (2 : Rat).num ++ "/resume",
        [("api_key", .str mockClient.apiKey)], some (.obj [])⟩] ∧
    ("id" ∉ objKeys validCreateAccountArgs ∧
      ∀ req ∈ (executeTool "create_email_account" mockClient validCreateAccountArgs).2,
        ∃ b, req.body = some b ∧ b.getField "id" = some Json.null) :=
  ⟨⟨by decide, C9_payload_shape.1 "create_campaign" (by decide) mockClient
      (.obj [("name", Json.str "X")])⟩,
   C9_payload_shape.2.2.2.2.1 mockClient "X" 5 (by decide) (by decide) (by norm_num),
   C9_payload_shape.2.2.2.2.2.1 mockClient 1 2 (by decide) (by norm_num) (by decide)
     (by norm_num),
   ⟨by decide, C9_payload_shape.2.2.2.2.2.2.2 mockClient validCreateAccountArgs
     (by decide)⟩⟩

/-! ### C8: the server boundary never lets an error escape -/

/-- C8: the call-tool request handler returns the tool envelope on success
and, for every thrown error — validation, API, unknown-tool, or a non-`Error`
value — the envelope with the single text block `<ErrorCategory>: <message>`
and `isError: true`; validation errors get the label `Validation Error`,
which no `Error`-typed throw and no non-`Error` throw ever receives, so the
validation category is distinct from the API and unknown-tool categories. -/
theorem C8_error_envelope :
    (∀ (c : SmartleadClient) (name : String) (args : Json) (res : ToolResponse)
        (t : List Request),
        executeTool name c args = (.ok res, t) →
        callToolRequestHandler c name args = (res, t)) ∧
    (∀ (c : SmartleadClient) (name : String) (args : Json) (e : Caught)
        (t : List Request),
        executeTool name c args = (.error e, t) →
        callToolRequestHandler c name args =
          (⟨[⟨"text", (categorize e).1 ++ ": " ++ (categorize e).2⟩], some true⟩, t)) ∧
    (∀ m, categorize (.zodError m) = ("Validation Error", "Invalid input: " ++ m)) ∧
    (∀ m, (categorize (.jsError m)).1 = "API Error" ∨
          (categorize (.jsError m)).1 = "Tool Error" ∨
          (categorize (.jsError m)).1 = "Error") ∧
    (∀ m, (categorize (.jsError m)).1 ≠ "Validation Error") ∧
    categorize .nonError = ("Unknown Error", "An unexpected error occurred") := by
  refine ⟨?_, ?_, fun m => rfl, ?_, ?_, rfl⟩
  · intro c name args res t h
    simp [callToolRequestHandler, h]
  · intro c name args e t h
    simp [callToolRequestHandler, h]
  · intro m
    simp only [categorize]
    split_ifs <;> simp
  · intro m
    simp only [categorize]
    split_ifs <;> simp

/-- Witness for C8: dispatching the unregistered name `nope` yields the
`Tool Error`-labelled failure envelope with `isError: true`. -/
theorem C8_error_envelope_witness :
    callToolRequestHandler mockClient "nope" Json.null =
      (⟨[⟨"text", "Tool Error: Unknown tool: nope"⟩], some true⟩, []) :=
  (C8_error_envelope.2.1 mockClient "nope" Json.null
    (.jsError ("Unknown tool: " ++ "nope")) [] rfl).trans rfl

end Smartlead
